import Mathlib

/-!
Shallow embedding of the librsvg cairo rendering pipeline
(rsvg-cairo-draw.c): the node-acquisition protocol, the discrete-layer
push/pop machinery, luminance-mask generation, and the pixel-format
conversions, together with theorems about the behaviour of these
operations.

Conventions of the embedding:
- C pointers to nodes are modelled by node values with decidable
  equality (pointer identity becomes value identity; distinct nodes get
  distinct `id` fields).
- `guint32` arithmetic is `Nat` arithmetic with an explicit `% 2 ^ 32`
  where a 32-bit store occurs; `guchar` stores take `% 2 ^ 8` where the
  stored value can exceed 255.
- `double` fields that no verified property depends on numerically
  (affine matrices, offsets, viewport sizes) are embedded as `ℚ`.
- GLib control-flow macros are made explicit by the `Outcome` type:
  `g_assert`/`g_error` abort the program (`fatalAbort`),
  `g_return_if_fail` emits a critical diagnostic and returns early
  (`criticalReturn`), and dereferencing an empty stack is `memFault`.
- External collaborators that live outside this translation unit
  (`rsvg_node_draw_children`, `rsvg_filter_render`, `rsvg_bbox_insert`)
  are taken as function parameters, so theorems quantify over every
  possible behaviour of those collaborators.
-/

/-- Element kinds distinguished by the drawing code (`RsvgNodeType`).
Only the kinds the modelled code inspects are separated; every other
kind is collapsed into `other`. -/
inductive RsvgNodeType where
  | clipPathNode
  | maskNode
  | filterElement
  | other
deriving DecidableEq

/-- Coordinate-unit modes (`RsvgCoordUnits`). -/
inductive RsvgCoordUnits where
  | userSpaceOnUse
  | objectBoundingBox
deriving DecidableEq

/-- Cairo compositing operators (`cairo_operator_t`); only equality with
`OVER` is ever tested by the modelled code, the remaining operators are
representative members of the enum. -/
inductive CairoOperator where
  | over
  | clear
  | source
  | multiply
deriving DecidableEq

/-- `RsvgEnableBackgroundType`. -/
inductive RsvgEnableBackgroundType where
  | accumulate
  | newBackground
deriving DecidableEq

/-- Cairo surface status (`cairo_status_t`): success or an allocation
failure. -/
inductive CairoStatus where
  | success
  | noMemory
deriving DecidableEq

/-- The two kinds of offscreen surface the layer machinery allocates:
`cairo_surface_create_similar (CAIRO_CONTENT_COLOR_ALPHA)` for plain
layers and `cairo_image_surface_create (CAIRO_FORMAT_ARGB32)` for
filtered layers and masks. -/
inductive CairoSurfaceKind where
  | similarColorAlpha
  | imageArgb32
deriving DecidableEq

/-- A cairo surface handle: its kind, creation status and size. -/
structure CairoSurface where
  kind : CairoSurfaceKind
  status : CairoStatus
  width : Nat
  height : Nat
deriving DecidableEq

/-- A `cairo_t` rendering context: the surface it targets and the number
of clip regions applied to it (the only backend state the verified
properties observe). -/
structure Cairo where
  target : CairoSurface
  clips : Nat
deriving DecidableEq

/-- An affine transform (`cairo_matrix_t`), with exact rational entries
standing in for the C doubles. -/
structure CairoMatrix where
  xx : ℚ
  yx : ℚ
  xy : ℚ
  yy : ℚ
  x0 : ℚ
  y0 : ℚ
deriving DecidableEq

/-- `cairo_matrix_init`. -/
def cairo_matrix_init (xx yx xy yy x0 y0 : ℚ) : CairoMatrix :=
  ⟨xx, yx, xy, yy, x0, y0⟩

/-- `cairo_matrix_multiply (result, a, b)`: the transform that applies
`a` first and `b` second. -/
def cairo_matrix_multiply (a b : CairoMatrix) : CairoMatrix :=
  { xx := a.xx * b.xx + a.yx * b.xy
    yx := a.xx * b.yx + a.yx * b.yy
    xy := a.xy * b.xx + a.yy * b.xy
    yy := a.xy * b.yx + a.yy * b.yy
    x0 := a.x0 * b.xx + a.y0 * b.xy + b.x0
    y0 := a.x0 * b.yx + a.y0 * b.yy + b.y0 }

/-- A rectangle with rational coordinates. -/
structure RsvgRect where
  x : ℚ
  y : ℚ
  width : ℚ
  height : ℚ
deriving DecidableEq

/-- `RsvgBbox`: a rectangle paired with the affine transform that was
active when the box was opened, plus the `virgin` (still empty) flag. -/
structure RsvgBbox where
  rect : RsvgRect
  affine : CairoMatrix
  virgin : Bool
deriving DecidableEq

/-- Modelled from the spec: `rsvg_bbox_init` (rsvg-bbox.c is not part of
this translation unit) opens an empty box tagged with the given affine
transform. -/
def rsvg_bbox_init (affine : CairoMatrix) : RsvgBbox :=
  { rect := ⟨0, 0, 0, 0⟩, affine := affine, virgin := true }

/-- The style state carried per element (`RsvgState`): the fields the
modelled drawing code reads.  The string-valued references are the
`clip-path`, `filter` and `mask` IRIs. -/
structure RsvgState where
  affine : CairoMatrix
  clip_path : Option String
  filterRef : Option String
  mask : Option String
  opacity : Nat
  comp_op : CairoOperator
  enable_background : RsvgEnableBackgroundType
deriving DecidableEq

/-- An element of the document tree (`RsvgNode`), with the attributes
the modelled code queries through accessors: its kind, its own style
state, clip-path units, and the mask region/units.  The mask region
lengths are stored already normalised (the `RsvgLength` machinery lives
outside this translation unit). -/
structure RsvgNode where
  id : Nat
  nodeType : RsvgNodeType
  state : RsvgState
  clipPathUnits : RsvgCoordUnits
  maskUnits : RsvgCoordUnits
  maskContentUnits : RsvgCoordUnits
  maskX : ℚ
  maskY : ℚ
  maskW : ℚ
  maskH : ℚ
deriving DecidableEq

/-- The defs table: identifier-to-node mapping owned by the handle. -/
abbrev RsvgDefs := List (String × RsvgNode)

/-- Modelled from the spec: `rsvg_defs_lookup` (rsvg-defs.c is not part
of this translation unit) resolves an identifier to an element or
returns none. -/
def rsvg_defs_lookup (defs : RsvgDefs) (url : String) : Option RsvgNode :=
  (defs.find? (fun p => p.fst = url)).map (fun p => p.snd)

/-- `RsvgViewBox`: the active viewport for percentage resolution. -/
structure RsvgViewBox where
  rect : RsvgRect
deriving DecidableEq

/-- The drawing context (`RsvgDrawingCtx`).  Fields follow the C struct;
the testing-only font fields are omitted.  `state` plus `state_stack`
model the parent-linked `RsvgState` chain maintained by
`rsvg_drawing_ctx_state_push/pop` (rsvg-styles.c, outside this
translation unit). -/
structure RsvgDrawingCtx where
  cr : Cairo
  initial_cr : Cairo
  cr_stack : List Cairo
  surfaces_stack : List CairoSurface
  state : RsvgState
  state_stack : List RsvgState
  bbox : RsvgBbox
  ink_bbox : RsvgBbox
  bb_stack : List RsvgBbox
  ink_bb_stack : List RsvgBbox
  acquired_nodes : List RsvgNode
  vb : RsvgViewBox
  vb_stack : List RsvgViewBox
  defs : RsvgDefs
  width : Nat
  height : Nat
  offset_x : ℚ
  offset_y : ℚ
deriving DecidableEq

/-- Abnormal-control-flow-aware result of running a piece of the C code:
`normal` is ordinary completion, `criticalReturn` is a failed
`g_return_if_fail` check (a critical diagnostic is logged and the
function returns early), `fatalAbort` is `g_assert`/`g_error` (the
process aborts), and `memFault` is an out-of-contract dereference such
as reading the head of an empty stack. -/
inductive Outcome (α : Type) where
  | normal (a : α)
  | criticalReturn (a : α)
  | fatalAbort
  | memFault
deriving DecidableEq

/-- The context a caller continues with after a callee finished with the
given outcome: both `normal` and `criticalReturn` return control to the
caller (the latter after logging), the abnormal outcomes do not, so a
fallback is supplied for them (unreachable at the modelled call sites). -/
def Outcome.continueCtx : Outcome RsvgDrawingCtx → RsvgDrawingCtx → RsvgDrawingCtx
  | Outcome.normal c, _ => c
  | Outcome.criticalReturn c, _ => c
  | Outcome.fatalAbort, fallback => fallback
  | Outcome.memFault, fallback => fallback

/-- Projection used to state properties of a computation that completed
normally. -/
def Outcome.normalValue {α : Type} : Outcome α → Option α
  | Outcome.normal a => some a
  | _ => none

/-- Modelled from the spec: `rsvg_drawing_ctx_state_push` (rsvg-styles.c
is not part of this translation unit) saves the current style state on
the state chain. -/
def rsvg_drawing_ctx_state_push (ctx : RsvgDrawingCtx) : RsvgDrawingCtx :=
  { ctx with state_stack := ctx.state :: ctx.state_stack }

/-- Modelled from the spec: `rsvg_drawing_ctx_state_pop` restores the
previously saved style state.  Popping an empty chain is a caller
discipline violation that the modelled call sites never perform. -/
def rsvg_drawing_ctx_state_pop (ctx : RsvgDrawingCtx) : RsvgDrawingCtx :=
  match ctx.state_stack with
  | [] => ctx
  | s :: rest => { ctx with state := s, state_stack := rest }

/-- `rsvg_drawing_ctx_push_view_box`: saves the viewport and installs a
`w` by `h` one (the saved `x`/`y` of the rect are kept in place, as in
the C, which only overwrites width and height). -/
def rsvg_drawing_ctx_push_view_box (ctx : RsvgDrawingCtx) (w h : ℚ) : RsvgDrawingCtx :=
  { ctx with
    vb_stack := ctx.vb :: ctx.vb_stack
    vb := { rect := { ctx.vb.rect with width := w, height := h } } }

/-- `rsvg_drawing_ctx_pop_view_box`: restores the saved viewport.  The C
dereferences the stack head unconditionally; the modelled call sites
always pop after a matching push, so the empty case is unreachable. -/
def rsvg_drawing_ctx_pop_view_box (ctx : RsvgDrawingCtx) : RsvgDrawingCtx :=
  match ctx.vb_stack with
  | [] => ctx
  | vb :: rest => { ctx with vb := vb, vb_stack := rest }

/-- `rsvg_drawing_ctx_acquire_node`: cycle-guarded resolution of a node
reference.  Returns none for a NULL url, an unknown identifier, or a
node already on the acquisition list; on success the node is prepended
to `acquired_nodes`. -/
def rsvg_drawing_ctx_acquire_node (ctx : RsvgDrawingCtx) (url : Option String) :
    Option RsvgNode × RsvgDrawingCtx :=
  match url with
  | none => (none, ctx)
  | some u =>
    match rsvg_defs_lookup ctx.defs u with
    | none => (none, ctx)
    | some node =>
      if node ∈ ctx.acquired_nodes then
        (none, ctx)
      else
        (some node, { ctx with acquired_nodes := node :: ctx.acquired_nodes })

/-- `rsvg_drawing_ctx_release_node`: releasing NULL does nothing;
otherwise two `g_return_if_fail` checks demand a non-empty acquisition
list whose head is the released node, and only then is the head removed
(`g_slist_remove` removes the first occurrence, which the check has
pinned to the head). -/
def rsvg_drawing_ctx_release_node (ctx : RsvgDrawingCtx) (node : Option RsvgNode) :
    Outcome RsvgDrawingCtx :=
  match node with
  | none => Outcome.normal ctx
  | some n =>
    match ctx.acquired_nodes with
    | [] => Outcome.criticalReturn ctx
    | top :: rest =>
      if top = n then
        Outcome.normal { ctx with acquired_nodes := rest }
      else
        Outcome.criticalReturn ctx

/-- `rsvg_drawing_ctx_acquire_node_of_type`: the typed acquisition
variant.  On a missing node or a kind mismatch it releases whatever was
acquired and returns none. -/
def rsvg_drawing_ctx_acquire_node_of_type (ctx : RsvgDrawingCtx) (url : Option String)
    (ty : RsvgNodeType) : Option RsvgNode × RsvgDrawingCtx :=
  match rsvg_drawing_ctx_acquire_node ctx url with
  | (none, ctx1) =>
    (none, (rsvg_drawing_ctx_release_node ctx1 none).continueCtx ctx1)
  | (some n, ctx1) =>
    if n.nodeType = ty then
      (some n, ctx1)
    else
      (none, (rsvg_drawing_ctx_release_node ctx1 (some n)).continueCtx ctx1)

/-- A fixed tiny style, node set and context used by the concrete
witness computations below. -/
def matrix0 : CairoMatrix := cairo_matrix_init 1 0 0 1 0 0

def state0 : RsvgState :=
  { affine := matrix0
    clip_path := none
    filterRef := none
    mask := none
    opacity := 0xFF
    comp_op := CairoOperator.over
    enable_background := RsvgEnableBackgroundType.accumulate }

def surface0 : CairoSurface :=
  { kind := CairoSurfaceKind.similarColorAlpha
    status := CairoStatus.success
    width := 100
    height := 100 }

def cairo0 : Cairo := { target := surface0, clips := 0 }

def nodeA : RsvgNode :=
  { id := 1
    nodeType := RsvgNodeType.clipPathNode
    state := state0
    clipPathUnits := RsvgCoordUnits.userSpaceOnUse
    maskUnits := RsvgCoordUnits.userSpaceOnUse
    maskContentUnits := RsvgCoordUnits.userSpaceOnUse
    maskX := 0, maskY := 0, maskW := 1, maskH := 1 }

def nodeB : RsvgNode :=
  { nodeA with id := 2, nodeType := RsvgNodeType.maskNode }

def bbox0 : RsvgBbox := rsvg_bbox_init matrix0

def ctx0 : RsvgDrawingCtx :=
  { cr := cairo0
    initial_cr := cairo0
    cr_stack := []
    surfaces_stack := []
    state := state0
    state_stack := []
    bbox := bbox0
    ink_bbox := bbox0
    bb_stack := []
    ink_bb_stack := []
    acquired_nodes := []
    vb := { rect := ⟨0, 0, 100, 100⟩ }
    vb_stack := []
    defs := [("a", nodeA), ("b", nodeB)]
    width := 100
    height := 100
    offset_x := 0
    offset_y := 0 }

/-- The contract the external tree walker obeys when it is invoked on a
subtree with `clipping` set (as `rsvg_node_draw_children` is from
`rsvg_cairo_clip` and `rsvg_cairo_generate_mask`): every push is matched
by a pop and every acquisition by a release before it returns, so its
net effect on the drawing context touches only the two open bounding
boxes. -/
def PreservesDraw (f : RsvgNode → RsvgDrawingCtx → RsvgDrawingCtx) : Prop :=
  ∀ n c, f n c = { c with bbox := (f n c).bbox, ink_bbox := (f n c).ink_bbox }

/-- `rsvg_cairo_clip`: evaluates a clip-path element.  For an
`objectBoundingBox` clip the referenced element's own transform is
temporarily premultiplied with the box-to-unit-square mapping (with
value-semantics nodes the modified node is passed to the child draw and
the save/restore of the original affine is implicit).  The child drawing
runs between a state push and pop; the context's `cr_stack` and
`surfaces_stack` are asserted unchanged afterwards (`g_assert`), both
accumulated bounding boxes are restored to their values from before the
excursion, and the resulting path is clipped onto the active target.

The node whose children are drawn: for an `objectBoundingBox` clip the
clip-path element with its transform premultiplied by the
box-to-unit-square mapping (the "horribly dirty hack" of the source),
otherwise the element unchanged. -/
def clip_path_effective_node (node_clip_path : RsvgNode) (bbox : Option RsvgBbox) :
    RsvgNode :=
  match node_clip_path.clipPathUnits, bbox with
  | RsvgCoordUnits.objectBoundingBox, some bb =>
    let bbtransform :=
      cairo_matrix_init bb.rect.width 0 0 bb.rect.height bb.rect.x bb.rect.y
    let affinesave := node_clip_path.state.affine
    { node_clip_path with
      state := { node_clip_path.state with
                 affine := cairo_matrix_multiply bbtransform affinesave } }
  | RsvgCoordUnits.objectBoundingBox, none =>
    -- unreachable: every objectBoundingBox call site passes a bounding box
    node_clip_path
  | RsvgCoordUnits.userSpaceOnUse, _ => node_clip_path

def rsvg_cairo_clip (drawChildren : RsvgNode → RsvgDrawingCtx → RsvgDrawingCtx)
    (ctx : RsvgDrawingCtx) (node_clip_path : RsvgNode) (bbox : Option RsvgBbox) :
    Outcome RsvgDrawingCtx :=
  if node_clip_path.nodeType ≠ RsvgNodeType.clipPathNode then Outcome.fatalAbort else
  let node1 := clip_path_effective_node node_clip_path bbox
  let orig_cr_stack := ctx.cr_stack
  let orig_surfaces_stack := ctx.surfaces_stack
  let orig_bbox := ctx.bbox
  let orig_ink_bbox := ctx.ink_bbox
  let ctx1 := rsvg_drawing_ctx_state_pop (drawChildren node1 (rsvg_drawing_ctx_state_push ctx))
  if ctx1.cr_stack ≠ orig_cr_stack then Outcome.fatalAbort
  else if ctx1.surfaces_stack ≠ orig_surfaces_stack then Outcome.fatalAbort
  else
    Outcome.normal
      { ctx1 with
        bbox := orig_bbox
        ink_bbox := orig_ink_bbox
        cr := { ctx1.cr with clips := ctx1.cr.clips + 1 } }

/-- `push_bounding_box`: saves the current box pair on the two stacks
and opens a fresh empty pair tagged with the current transform. -/
def push_bounding_box (ctx : RsvgDrawingCtx) : RsvgDrawingCtx :=
  let affine := ctx.state.affine
  { ctx with
    bb_stack := ctx.bbox :: ctx.bb_stack
    ink_bb_stack := ctx.ink_bbox :: ctx.ink_bb_stack
    bbox := rsvg_bbox_init affine
    ink_bbox := rsvg_bbox_init affine }

/-- `pop_bounding_box`: merges the just-closed box pair into the saved
pair (via the external `rsvg_bbox_insert`, passed as `bboxInsert`) and
pops both stacks.  The C dereferences the stack heads unconditionally. -/
def pop_bounding_box (bboxInsert : RsvgBbox → RsvgBbox → RsvgBbox)
    (ctx : RsvgDrawingCtx) : Outcome RsvgDrawingCtx :=
  match ctx.bb_stack, ctx.ink_bb_stack with
  | b :: bs, ib :: ibs =>
    Outcome.normal
      { ctx with
        bbox := bboxInsert b ctx.bbox
        ink_bbox := bboxInsert ib ctx.ink_bbox
        bb_stack := bs
        ink_bb_stack := ibs }
  | _, _ => Outcome.memFault

/-- The fast-path condition tested (identically) at layer entry and
exit: fully opaque, no filter, no mask, no deferred clip, OVER
compositing, default background accumulation. -/
abbrev renderStackFastPath (st : RsvgState) (lateclip : Bool) : Prop :=
  st.opacity = 0xFF ∧ st.filterRef = none ∧ st.mask = none ∧ lateclip = false ∧
  st.comp_op = CairoOperator.over ∧
  st.enable_background = RsvgEnableBackgroundType.accumulate

/-- Whether the clip-path reference of the current style state resolves
to an `objectBoundingBox` clip path (the condition under which the layer
machinery defers the clip to layer exit). -/
def lateclipAt (ctx : RsvgDrawingCtx) : Bool :=
  match ctx.state.clip_path with
  | none => false
  | some url =>
    match rsvg_drawing_ctx_acquire_node_of_type ctx (some url) RsvgNodeType.clipPathNode with
    | (none, _) => false
    | (some node, _) =>
      match node.clipPathUnits with
      | RsvgCoordUnits.objectBoundingBox => true
      | RsvgCoordUnits.userSpaceOnUse => false

/-- The clip-handling prologue of `rsvg_cairo_push_render_stack`:
acquire the clip-path element; apply a `userSpaceOnUse` clip
immediately via `rsvg_cairo_clip`; record an `objectBoundingBox` clip as
a deferred (late) clip; release the element. -/
def pushRenderClipStep (drawChildren : RsvgNode → RsvgDrawingCtx → RsvgDrawingCtx)
    (ctx : RsvgDrawingCtx) : Outcome (Bool × RsvgDrawingCtx) :=
  match ctx.state.clip_path with
  | none => Outcome.normal (false, ctx)
  | some url =>
    match rsvg_drawing_ctx_acquire_node_of_type ctx (some url) RsvgNodeType.clipPathNode with
    | (none, ctx1) => Outcome.normal (false, ctx1)
    | (some node, ctx1) =>
      match node.clipPathUnits with
      | RsvgCoordUnits.userSpaceOnUse =>
        match rsvg_cairo_clip drawChildren ctx1 node none with
        | Outcome.normal ctx2 =>
          Outcome.normal
            (false, (rsvg_drawing_ctx_release_node ctx2 (some node)).continueCtx ctx2)
        | Outcome.criticalReturn ctx2 =>
          Outcome.normal
            (false, (rsvg_drawing_ctx_release_node ctx2 (some node)).continueCtx ctx2)
        | Outcome.fatalAbort => Outcome.fatalAbort
        | Outcome.memFault => Outcome.memFault
      | RsvgCoordUnits.objectBoundingBox =>
        Outcome.normal
          (true, (rsvg_drawing_ctx_release_node ctx1 (some node)).continueCtx ctx1)

/-- The result of `rsvg_cairo_push_render_stack`: the updated context
and the offscreen surface allocated by this layer entry, if any. -/
structure PushRenderResult where
  ctx : RsvgDrawingCtx
  allocated : Option CairoSurface
deriving DecidableEq

/-- `rsvg_cairo_push_render_stack`: layer entry.  After the clip
prologue, the fast-path condition short-circuits everything; otherwise
an offscreen surface is allocated (a similar color+alpha surface, or an
ARGB32 image surface additionally pushed on `surfaces_stack` when a
filter is set), a child cr targeting it becomes the active target with
the previous one saved on `cr_stack`, and a fresh bounding-box pair is
opened.  The allocation-status check present in the source is compiled
out (`#if 0`), so the surface is used regardless of `allocStatus`. -/
def rsvg_cairo_push_render_stack (drawChildren : RsvgNode → RsvgDrawingCtx → RsvgDrawingCtx)
    (allocStatus : CairoStatus) (ctx : RsvgDrawingCtx) : Outcome PushRenderResult :=
  let state := ctx.state
  match pushRenderClipStep drawChildren ctx with
  | Outcome.fatalAbort => Outcome.fatalAbort
  | Outcome.memFault => Outcome.memFault
  | Outcome.criticalReturn p => Outcome.normal ⟨p.2, none⟩
  | Outcome.normal p =>
    let lateclip := p.1
    let ctx1 := p.2
    if renderStackFastPath state lateclip then
      Outcome.normal ⟨ctx1, none⟩
    else
      let surface : CairoSurface :=
        match state.filterRef with
        | none =>
          { kind := CairoSurfaceKind.similarColorAlpha, status := allocStatus,
            width := ctx1.width, height := ctx1.height }
        | some _ =>
          { kind := CairoSurfaceKind.imageArgb32, status := allocStatus,
            width := ctx1.width, height := ctx1.height }
      let ctx2 :=
        match state.filterRef with
        | none => ctx1
        | some _ => { ctx1 with surfaces_stack := surface :: ctx1.surfaces_stack }
      let child_cr : Cairo := { target := surface, clips := 0 }
      let ctx3 := { ctx2 with cr_stack := ctx2.cr :: ctx2.cr_stack, cr := child_cr }
      Outcome.normal ⟨push_bounding_box ctx3, some surface⟩

/-- `rsvg_cairo_push_discrete_layer`: wrapper that saves the cairo state
and enters the render stack unless a clipping walk is in progress. -/
def rsvg_cairo_push_discrete_layer (drawChildren : RsvgNode → RsvgDrawingCtx → RsvgDrawingCtx)
    (allocStatus : CairoStatus) (ctx : RsvgDrawingCtx) (clipping : Bool) :
    Outcome PushRenderResult :=
  if clipping then Outcome.normal ⟨ctx, none⟩
  else rsvg_cairo_push_render_stack drawChildren allocStatus ctx

/-- The per-pixel luminance-to-alpha conversion at the heart of
`rsvg_cairo_generate_mask`: each colour channel is taken from its byte
position, weighted by the fixed integer luminance weights, summed, and
scaled by the element opacity; the result is stored back as a 32-bit
value whose most significant byte is the mask alpha. -/
def maskPixel (pixel opacity : Nat) : Nat :=
  ((((pixel &&& 0x00ff0000) >>> 16) * 14042 +
    ((pixel &&& 0x0000ff00) >>> 8) * 47240 +
    (pixel &&& 0x000000ff) * 4769) * opacity) % 2 ^ 32

/-- The alpha byte the compositor reads from a converted mask pixel. -/
def maskAlpha (pixel opacity : Nat) : Nat :=
  maskPixel pixel opacity >>> 24

/-- The double `for` loop of `rsvg_cairo_generate_mask` over the mask
surface: every pixel of every row is rewritten in place by `maskPixel`
(rows are the stride-separated scanlines viewed as 32-bit pixels). -/
def luminanceToAlphaRows (rows : List (List Nat)) (opacity : Nat) : List (List Nat) :=
  rows.map (fun row => row.map (fun pixel => maskPixel pixel opacity))

/-- The result of `rsvg_cairo_generate_mask`: the updated context,
whether a mask composite (`cairo_mask_surface`) was performed, and the
pixel grid of the generated mask surface. -/
structure GenerateMaskResult where
  ctx : RsvgDrawingCtx
  applied : Bool
  maskPixels : List (List Nat)
deriving DecidableEq

/-- `rsvg_cairo_generate_mask`: renders a mask element's children into a
fresh canvas-sized ARGB32 surface and converts the result to an alpha
mask.  The surface allocation is status-checked: on failure the surface
is destroyed and the whole mask is abandoned before any use.  The mask
region lengths are resolved against a temporary unit viewport when the
mask units are `objectBoundingBox` (their values feed only the backend
clipping rectangle); for `objectBoundingBox` content units the mask's
own transform is premultiplied with the box mapping while its children
draw under a unit viewport.  `renderedPixels` stands for the pixel
content the child drawing left on the mask surface. -/
def rsvg_cairo_generate_mask (drawChildren : RsvgNode → RsvgDrawingCtx → RsvgDrawingCtx)
    (allocStatus : CairoStatus) (renderedPixels : List (List Nat)) (cr : Cairo)
    (mask : RsvgNode) (ctx : RsvgDrawingCtx) : Outcome GenerateMaskResult :=
  if mask.nodeType ≠ RsvgNodeType.maskNode then Outcome.fatalAbort else
  let surface : CairoSurface :=
    { kind := CairoSurfaceKind.imageArgb32, status := allocStatus,
      width := ctx.width, height := ctx.height }
  if surface.status ≠ CairoStatus.success then
    Outcome.normal ⟨ctx, false, []⟩
  else
    let mask_units := mask.maskUnits
    let content_units := mask.maskContentUnits
    let ctxA :=
      if mask_units = RsvgCoordUnits.objectBoundingBox then
        rsvg_drawing_ctx_push_view_box ctx 1 1
      else ctx
    let ctxB :=
      if mask_units = RsvgCoordUnits.objectBoundingBox then
        rsvg_drawing_ctx_pop_view_box ctxA
      else ctxA
    let mask_cr : Cairo := { target := surface, clips := 0 }
    let save_cr := ctxB.cr
    let ctxC := { ctxB with cr := mask_cr }
    let state := ctxC.state
    let mask1 :=
      if content_units = RsvgCoordUnits.objectBoundingBox then
        let bbtransform :=
          cairo_matrix_init ctxC.bbox.rect.width 0 0 ctxC.bbox.rect.height
            ctxC.bbox.rect.x ctxC.bbox.rect.y
        { mask with
          state := { mask.state with
                     affine := cairo_matrix_multiply bbtransform mask.state.affine } }
      else mask
    let ctxD :=
      if content_units = RsvgCoordUnits.objectBoundingBox then
        rsvg_drawing_ctx_push_view_box ctxC 1 1
      else ctxC
    let ctxE := rsvg_drawing_ctx_state_pop (drawChildren mask1 (rsvg_drawing_ctx_state_push ctxD))
    let ctxF :=
      if content_units = RsvgCoordUnits.objectBoundingBox then
        rsvg_drawing_ctx_pop_view_box ctxE
      else ctxE
    let ctxG := { ctxF with cr := save_cr }
    let opacity := state.opacity
    Outcome.normal ⟨ctxG, true, luminanceToAlphaRows renderedPixels opacity⟩

/-- What the layer-exit epilogue paints onto the restored target:
nothing, a composite through a generated mask, a uniform-alpha paint, or
a plain paint. -/
inductive CompositeAction where
  | noPaint
  | maskPaint
  | alphaPaint (alpha : Nat)
  | plainPaint
deriving DecidableEq

/-- The result of `rsvg_cairo_pop_render_stack`. -/
structure PopRenderResult where
  ctx : RsvgDrawingCtx
  composite : CompositeAction
  tookFastPath : Bool
deriving DecidableEq

/-- The clip-handling prologue of `rsvg_cairo_pop_render_stack`: acquire
the clip-path element and keep it acquired as the deferred clip when its
units are `objectBoundingBox`; otherwise release it immediately. -/
def popRenderClipStep (ctx : RsvgDrawingCtx) : Option RsvgNode × RsvgDrawingCtx :=
  match ctx.state.clip_path with
  | none => (none, ctx)
  | some url =>
    match rsvg_drawing_ctx_acquire_node_of_type ctx (some url) RsvgNodeType.clipPathNode with
    | (none, ctx1) => (none, ctx1)
    | (some node, ctx1) =>
      match node.clipPathUnits with
      | RsvgCoordUnits.objectBoundingBox => (some node, ctx1)
      | RsvgCoordUnits.userSpaceOnUse =>
        (none, (rsvg_drawing_ctx_release_node ctx1 (some node)).continueCtx ctx1)

/-- The filter block of `rsvg_cairo_pop_render_stack`: pop the filtered
surface from `surfaces_stack`, acquire the filter element, run the
external filter evaluator (`rsvg_filter_render`, passed as
`filterRender`) to obtain the replacement surface, and release the
element.  Returns the surface to composite and whether it must be
destroyed at the end of the exit. -/
def popRenderFilterStep (filterRender : RsvgNode → CairoSurface → CairoSurface)
    (childTarget : CairoSurface) (ctx : RsvgDrawingCtx) :
    Outcome (CairoSurface × Bool × RsvgDrawingCtx) :=
  match ctx.state.filterRef with
  | none => Outcome.normal (childTarget, false, ctx)
  | some f =>
    match ctx.surfaces_stack with
    | [] => Outcome.memFault
    | output :: rest =>
      let ctx1 := { ctx with surfaces_stack := rest }
      match rsvg_drawing_ctx_acquire_node_of_type ctx1 (some f) RsvgNodeType.filterElement with
      | (none, ctx2) => Outcome.normal (childTarget, false, ctx2)
      | (some node, ctx2) =>
        let filtered := filterRender node output
        Outcome.normal
          (filtered, true, (rsvg_drawing_ctx_release_node ctx2 (some node)).continueCtx ctx2)

/-- The deferred-clip block of `rsvg_cairo_pop_render_stack`: apply the
kept-acquired `objectBoundingBox` clip path against the accumulated
layer bounding box, then release it. -/
def popRenderLateclipStep (drawChildren : RsvgNode → RsvgDrawingCtx → RsvgDrawingCtx)
    (lateclip : Option RsvgNode) (ctx : RsvgDrawingCtx) : Outcome RsvgDrawingCtx :=
  match lateclip with
  | none => Outcome.normal ctx
  | some node =>
    match rsvg_cairo_clip drawChildren ctx node (some ctx.bbox) with
    | Outcome.fatalAbort => Outcome.fatalAbort
    | Outcome.memFault => Outcome.memFault
    | Outcome.normal ctx1 =>
      Outcome.normal ((rsvg_drawing_ctx_release_node ctx1 (some node)).continueCtx ctx1)
    | Outcome.criticalReturn ctx1 =>
      Outcome.normal ((rsvg_drawing_ctx_release_node ctx1 (some node)).continueCtx ctx1)

/-- The compositing block of `rsvg_cairo_pop_render_stack`: with a mask
reference, acquire the mask element and composite through the generated
mask (nothing at all is painted when the acquisition fails or the mask
surface cannot be allocated); without one, paint with uniform alpha when
opacity is not 0xFF, else paint plainly. -/
def popRenderMaskStep (drawChildren : RsvgNode → RsvgDrawingCtx → RsvgDrawingCtx)
    (maskAllocStatus : CairoStatus) (maskRenderedPixels : List (List Nat))
    (maskRef : Option String) (opacity : Nat) (ctx : RsvgDrawingCtx) :
    Outcome (CompositeAction × RsvgDrawingCtx) :=
  match maskRef with
  | some m =>
    match rsvg_drawing_ctx_acquire_node_of_type ctx (some m) RsvgNodeType.maskNode with
    | (none, ctx1) => Outcome.normal (CompositeAction.noPaint, ctx1)
    | (some node, ctx1) =>
      match rsvg_cairo_generate_mask drawChildren maskAllocStatus maskRenderedPixels
          ctx1.cr node ctx1 with
      | Outcome.fatalAbort => Outcome.fatalAbort
      | Outcome.memFault => Outcome.memFault
      | Outcome.normal r =>
        Outcome.normal
          (if r.applied then CompositeAction.maskPaint else CompositeAction.noPaint,
           (rsvg_drawing_ctx_release_node r.ctx (some node)).continueCtx r.ctx)
      | Outcome.criticalReturn r =>
        Outcome.normal
          (if r.applied then CompositeAction.maskPaint else CompositeAction.noPaint,
           (rsvg_drawing_ctx_release_node r.ctx (some node)).continueCtx r.ctx)
  | none =>
    if opacity ≠ 0xFF then Outcome.normal (CompositeAction.alphaPaint opacity, ctx)
    else Outcome.normal (CompositeAction.plainPaint, ctx)

/-- `rsvg_cairo_pop_render_stack`: layer exit.  Recomputes the fast-path
condition and does nothing when it holds; otherwise runs the filter
block, restores the saved target from `cr_stack` (reading the canvas
offset when the restored target is the initial one), applies the
deferred clip, sets the compositing operator, performs the compositing
block, destroys the child cr, and closes the layer's bounding-box pair. -/
def rsvg_cairo_pop_render_stack (drawChildren : RsvgNode → RsvgDrawingCtx → RsvgDrawingCtx)
    (bboxInsert : RsvgBbox → RsvgBbox → RsvgBbox)
    (filterRender : RsvgNode → CairoSurface → CairoSurface)
    (maskAllocStatus : CairoStatus) (maskRenderedPixels : List (List Nat))
    (ctx : RsvgDrawingCtx) : Outcome PopRenderResult :=
  let state := ctx.state
  let child_cr := ctx.cr
  let clipStep := popRenderClipStep ctx
  let lateclip := clipStep.1
  let ctx1 := clipStep.2
  if renderStackFastPath state lateclip.isSome then
    Outcome.normal ⟨ctx1, CompositeAction.noPaint, true⟩
  else
    match popRenderFilterStep filterRender child_cr.target ctx1 with
    | Outcome.fatalAbort => Outcome.fatalAbort
    | Outcome.memFault => Outcome.memFault
    | Outcome.criticalReturn t => Outcome.normal ⟨t.2.2, CompositeAction.noPaint, false⟩
    | Outcome.normal t =>
      let ctx2 := t.2.2
      match ctx2.cr_stack with
      | [] => Outcome.memFault
      | top :: rest =>
        let ctx3 := { ctx2 with cr := top, cr_stack := rest }
        match popRenderLateclipStep drawChildren lateclip ctx3 with
        | Outcome.fatalAbort => Outcome.fatalAbort
        | Outcome.memFault => Outcome.memFault
        | Outcome.criticalReturn ctx4 => Outcome.normal ⟨ctx4, CompositeAction.noPaint, false⟩
        | Outcome.normal ctx4 =>
          match popRenderMaskStep drawChildren maskAllocStatus maskRenderedPixels
              state.mask state.opacity ctx4 with
          | Outcome.fatalAbort => Outcome.fatalAbort
          | Outcome.memFault => Outcome.memFault
          | Outcome.criticalReturn pr => Outcome.normal ⟨pr.2, pr.1, false⟩
          | Outcome.normal pr =>
            match pop_bounding_box bboxInsert pr.2 with
            | Outcome.fatalAbort => Outcome.fatalAbort
            | Outcome.memFault => Outcome.memFault
            | Outcome.criticalReturn ctx5 => Outcome.normal ⟨ctx5, pr.1, false⟩
            | Outcome.normal ctx5 => Outcome.normal ⟨ctx5, pr.1, false⟩

/-- `rsvg_cairo_pop_discrete_layer`: wrapper that exits the render stack
and restores the cairo state unless a clipping walk is in progress. -/
def rsvg_cairo_pop_discrete_layer (drawChildren : RsvgNode → RsvgDrawingCtx → RsvgDrawingCtx)
    (bboxInsert : RsvgBbox → RsvgBbox → RsvgBbox)
    (filterRender : RsvgNode → CairoSurface → CairoSurface)
    (maskAllocStatus : CairoStatus) (maskRenderedPixels : List (List Nat))
    (ctx : RsvgDrawingCtx) (clipping : Bool) : Outcome PopRenderResult :=
  if clipping then Outcome.normal ⟨ctx, CompositeAction.noPaint, true⟩
  else rsvg_cairo_pop_render_stack drawChildren bboxInsert filterRender maskAllocStatus
    maskRenderedPixels ctx

/-- The `MULT` macro of `rsvg_cairo_surface_from_pixbuf`: the rounded
fixed-point multiply `(c * a + 0x7f)` followed by the divide-by-255
approximation `((t >> 8) + t) >> 8` used to premultiply a straight
channel `c` by an alpha `a`. -/
def MULT (c a : Nat) : Nat :=
  let t := c * a + 0x7f
  ((t >>> 8) + t) >>> 8

/-- One pixel of the four-channel branch of
`rsvg_cairo_surface_from_pixbuf` on a little-endian host: the straight
RGBA bytes `r g b a` are premultiplied with `MULT` and stored as the
bytes `q[0] = B, q[1] = G, q[2] = R, q[3] = A` of an ARGB32 word, here
written as the 32-bit value `q0 + q1 * 2^8 + q2 * 2^16 + q3 * 2^24`. -/
def rsvg_pixbuf_pixel_to_cairo (r g b a : Nat) : Nat :=
  MULT b a + MULT g a * 2 ^ 8 + MULT r a * 2 ^ 16 + a * 2 ^ 24

/-- One pixel of `convert_alpha`: the premultiplied ARGB32 word becomes
four straight bytes `[R, G, B, A]`.  Zero alpha forces the colour
channels to zero; otherwise each channel is the rounding division
`(premultiplied * 255 + alpha / 2) / alpha`.  The byte stores truncate
(`% 2 ^ 8`), exactly as the C assignment to `guchar` does. -/
def convert_alpha_pixel (src : Nat) : List Nat :=
  let alpha := src >>> 24
  if alpha = 0 then
    [0, 0, 0, alpha]
  else
    [(((src &&& 0xff0000) >>> 16) * 255 + alpha / 2) / alpha % 2 ^ 8,
     (((src &&& 0x00ff00) >>> 8) * 255 + alpha / 2) / alpha % 2 ^ 8,
     ((src &&& 0x0000ff) * 255 + alpha / 2) / alpha % 2 ^ 8,
     alpha]

/-- The inner `for` loop of `convert_alpha` over one scanline: each
32-bit source pixel contributes four consecutive destination bytes. -/
def convertAlphaRow : List Nat → List Nat
  | [] => []
  | src :: rest => convert_alpha_pixel src ++ convertAlphaRow rest

/-- The outer loop of `convert_alpha` over the scanlines. -/
def convertAlphaRows (rows : List (List Nat)) : List (List Nat) :=
  rows.map convertAlphaRow

/-- Division instrumented to record an attempted division by zero. -/
def checkedDiv (x y : Nat) : Option Nat :=
  if y = 0 then none else some (x / y)

/-- `convert_alpha_pixel` with every division routed through
`checkedDiv`: used to state that the conversion never divides by
zero. -/
def convert_alpha_pixel_checked (src : Nat) : Option (List Nat) :=
  let alpha := src >>> 24
  if alpha = 0 then
    some [0, 0, 0, alpha]
  else
    match checkedDiv (((src &&& 0xff0000) >>> 16) * 255 + alpha / 2) alpha,
          checkedDiv (((src &&& 0x00ff00) >>> 8) * 255 + alpha / 2) alpha,
          checkedDiv ((src &&& 0x0000ff) * 255 + alpha / 2) alpha with
    | some c0, some c1, some c2 => some [c0 % 2 ^ 8, c1 % 2 ^ 8, c2 % 2 ^ 8, alpha]
    | _, _, _ => none

/-- The straight-to-premultiplied-to-straight round trip of one RGBA
pixel: through `rsvg_cairo_surface_from_pixbuf`'s `MULT` encoding and
back through `convert_alpha`. -/
def premultRoundTrip (r g b a : Nat) : List Nat :=
  convert_alpha_pixel (rsvg_pixbuf_pixel_to_cairo r g b a)

/-- A child-drawing stand-in that dirties both open bounding boxes,
used to witness that `rsvg_cairo_clip` restores them. -/
def drawTrash : RsvgNode → RsvgDrawingCtx → RsvgDrawingCtx :=
  fun _ c =>
    { c with
      bbox := { c.bbox with virgin := false, rect := ⟨5, 5, 5, 5⟩ }
      ink_bbox := { c.ink_bbox with virgin := false, rect := ⟨7, 7, 7, 7⟩ } }

/-- The context `rsvg_cairo_clip` produces from `ctx0` under
`drawTrash`: everything restored, one more clip on the target. -/
def ctxClipRes : RsvgDrawingCtx := { ctx0 with cr := { cairo0 with clips := 1 } }

/-- A context whose current style carries a mask reference, entering a
non-fast-path layer (used by the C4 counterexample and the C10
witness). -/
def ctxMasked : RsvgDrawingCtx :=
  { ctx0 with
    state := { state0 with mask := some "nomask" }
    cr_stack := [cairo0]
    bb_stack := [bbox0]
    ink_bb_stack := [bbox0] }

/-- A context with a mask reference at layer entry (before any push),
for exercising `rsvg_cairo_push_render_stack` off the fast path. -/
def ctxC4 : RsvgDrawingCtx := { ctx0 with state := { state0 with mask := some "m" } }

/-- The surface `rsvg_cairo_push_render_stack` allocates from `ctxC4`
when the allocator fails. -/
def surfFail : CairoSurface :=
  { kind := CairoSurfaceKind.similarColorAlpha, status := CairoStatus.noMemory,
    width := 100, height := 100 }

/-- The result `rsvg_cairo_push_render_stack` produces from `ctxC4` with
a failed allocation: the dead surface is installed as the render target
anyway. -/
def pushFailRes : PushRenderResult :=
  ⟨{ ctxC4 with
     cr_stack := [cairo0]
     cr := { target := surfFail, clips := 0 }
     bb_stack := [bbox0]
     ink_bb_stack := [bbox0] }, some surfFail⟩

/-- The result of the non-fast-path layer exit from `ctxMasked` whose
mask reference does not resolve. -/
def popMaskedRes : PopRenderResult :=
  ⟨{ ctxMasked with cr_stack := [], bb_stack := [], ink_bb_stack := [] },
   CompositeAction.noPaint, false⟩

/-- C1: `rsvg_drawing_ctx_acquire_node` returns none and leaves the
context unchanged when the identifier resolves to a node already on
`acquired_nodes` (cycle guard), when the identifier is NULL, and when it
is unknown; and every successful acquisition pushes the resolved node
onto the front of `acquired_nodes` and changes nothing else. -/
theorem acquire_node_protocol (ctx : RsvgDrawingCtx) (url : Option String) :
    (∀ u n, url = some u → rsvg_defs_lookup ctx.defs u = some n →
      n ∈ ctx.acquired_nodes → rsvg_drawing_ctx_acquire_node ctx url = (none, ctx)) ∧
    (url = none → rsvg_drawing_ctx_acquire_node ctx url = (none, ctx)) ∧
    (∀ u, url = some u → rsvg_defs_lookup ctx.defs u = none →
      rsvg_drawing_ctx_acquire_node ctx url = (none, ctx)) ∧
    (∀ n ctx1, rsvg_drawing_ctx_acquire_node ctx url = (some n, ctx1) →
      ctx1 = { ctx with acquired_nodes := n :: ctx.acquired_nodes }) := by
  refine ⟨?_, ?_, ?_, ?_⟩
  · intro u n hu hlook hmem
    subst hu
    simp [rsvg_drawing_ctx_acquire_node, hlook, hmem]
  · intro hu
    subst hu
    rfl
  · intro u hu hlook
    subst hu
    simp [rsvg_drawing_ctx_acquire_node, hlook]
  · intro n ctx1 h
    match url with
    | none => simp [rsvg_drawing_ctx_acquire_node] at h
    | some u =>
      match hl : rsvg_defs_lookup ctx.defs u with
      | none => simp [rsvg_drawing_ctx_acquire_node, hl] at h
      | some m =>
        by_cases hm : m ∈ ctx.acquired_nodes
        · simp [rsvg_drawing_ctx_acquire_node, hl, hm] at h
        · simp [rsvg_drawing_ctx_acquire_node, hl, hm] at h
          obtain ⟨h1, h2⟩ := h
          subst h1
          exact h2.symm

/-- Witness for C1: running the acquisition protocol at the concrete
context `ctx0`. -/
theorem acquire_node_protocol_witness :
    rsvg_drawing_ctx_acquire_node ctx0 none = (none, ctx0) ∧
    rsvg_drawing_ctx_acquire_node ctx0 (some "nope") = (none, ctx0) ∧
    { ctx0 with acquired_nodes := [nodeA] } =
      { ctx0 with acquired_nodes := nodeA :: ctx0.acquired_nodes } := by
  refine ⟨(acquire_node_protocol ctx0 none).2.1 rfl,
          (acquire_node_protocol ctx0 (some "nope")).2.2.1 "nope" rfl (by decide),
          (acquire_node_protocol ctx0 (some "a")).2.2.2 nodeA
            { ctx0 with acquired_nodes := [nodeA] } (by decide)⟩

/-- A context with two acquired nodes, `nodeA` on top, used to exercise
the release discipline concretely. -/
def ctx2 : RsvgDrawingCtx := { ctx0 with acquired_nodes := [nodeA, nodeB] }

/-- C2 counterexample: releasing a node that is not the most recently
acquired entry does not abort the program.  `rsvg_drawing_ctx_release_node`
uses `g_return_if_fail`, which logs a critical diagnostic and returns
early, so the call finishes with a `criticalReturn` carrying the
unchanged context, not with `fatalAbort`. -/
theorem release_node_no_abort_counterexample :
    rsvg_drawing_ctx_release_node ctx2 (some nodeB) = Outcome.criticalReturn ctx2 ∧
    rsvg_drawing_ctx_release_node ctx2 (some nodeB) ≠ Outcome.fatalAbort := by
  constructor
  · rfl
  · intro h
    simp [rsvg_drawing_ctx_release_node, ctx2, nodeA, nodeB] at h

/-- C2 amended: releasing a non-none node that is not the head of
`acquired_nodes` fails a checked precondition — a critical diagnostic is
emitted and the function returns early with `acquired_nodes` unchanged
(the invalid release is refused, never silently performed) — while
releasing the most recently acquired node pops exactly that entry. -/
theorem release_node_lifo_discipline (ctx : RsvgDrawingCtx) (n : RsvgNode) :
    (∀ rest, ctx.acquired_nodes = n :: rest →
      rsvg_drawing_ctx_release_node ctx (some n) =
        Outcome.normal { ctx with acquired_nodes := rest }) ∧
    (ctx.acquired_nodes.head? ≠ some n →
      rsvg_drawing_ctx_release_node ctx (some n) = Outcome.criticalReturn ctx) := by
  constructor
  · intro rest hrest
    simp [rsvg_drawing_ctx_release_node, hrest]
  · intro hhead
    match hacq : ctx.acquired_nodes with
    | [] => simp [rsvg_drawing_ctx_release_node, hacq]
    | top :: rest =>
      rw [hacq] at hhead
      simp at hhead
      simp [rsvg_drawing_ctx_release_node, hacq, hhead]

/-- Witness for C2's amended theorem at the concrete context `ctx2`. -/
theorem release_node_lifo_discipline_witness :
    rsvg_drawing_ctx_release_node ctx2 (some nodeA) =
      Outcome.normal { ctx2 with acquired_nodes := [nodeB] } ∧
    rsvg_drawing_ctx_release_node ctx2 (some nodeB) = Outcome.criticalReturn ctx2 := by
  refine ⟨(release_node_lifo_discipline ctx2 nodeA).1 [nodeB] (by decide),
          (release_node_lifo_discipline ctx2 nodeB).2 (by decide)⟩

/-- Helper: a failed untyped acquisition leaves the context untouched. -/
theorem acquire_node_none_eq (ctx : RsvgDrawingCtx) (url : Option String)
    (ctx1 : RsvgDrawingCtx) (h : rsvg_drawing_ctx_acquire_node ctx url = (none, ctx1)) :
    ctx1 = ctx := by
  match url with
  | none =>
    simp [rsvg_drawing_ctx_acquire_node] at h
    exact h.symm
  | some u =>
    match hl : rsvg_defs_lookup ctx.defs u with
    | none =>
      simp [rsvg_drawing_ctx_acquire_node, hl] at h
      exact h.symm
    | some m =>
      by_cases hm : m ∈ ctx.acquired_nodes
      · simp [rsvg_drawing_ctx_acquire_node, hl, hm] at h
        exact h.symm
      · simp [rsvg_drawing_ctx_acquire_node, hl, hm] at h

/-- Helper: a successful untyped acquisition pushes exactly the returned
node. -/
theorem acquire_node_some_eq (ctx : RsvgDrawingCtx) (url : Option String)
    (n : RsvgNode) (ctx1 : RsvgDrawingCtx)
    (h : rsvg_drawing_ctx_acquire_node ctx url = (some n, ctx1)) :
    ctx1 = { ctx with acquired_nodes := n :: ctx.acquired_nodes } := by
  match url with
  | none => simp [rsvg_drawing_ctx_acquire_node] at h
  | some u =>
    match hl : rsvg_defs_lookup ctx.defs u with
    | none => simp [rsvg_drawing_ctx_acquire_node, hl] at h
    | some m =>
      by_cases hm : m ∈ ctx.acquired_nodes
      · simp [rsvg_drawing_ctx_acquire_node, hl, hm] at h
      · simp [rsvg_drawing_ctx_acquire_node, hl, hm] at h
        obtain ⟨h1, h2⟩ := h
        subst h1
        exact h2.symm

/-- Helper: releasing the head of the acquisition list pops exactly that
entry. -/
theorem release_node_head (ctx : RsvgDrawingCtx) (n : RsvgNode) (rest : List RsvgNode)
    (h : ctx.acquired_nodes = n :: rest) :
    rsvg_drawing_ctx_release_node ctx (some n) =
      Outcome.normal { ctx with acquired_nodes := rest } := by
  simp [rsvg_drawing_ctx_release_node, h]

/-- Helper: a failed typed acquisition leaves the context untouched
(atomicity of the lookup-check-release sequence). -/
theorem acquire_of_type_none_eq (ctx : RsvgDrawingCtx) (url : Option String)
    (ty : RsvgNodeType) (ctx1 : RsvgDrawingCtx)
    (h : rsvg_drawing_ctx_acquire_node_of_type ctx url ty = (none, ctx1)) :
    ctx1 = ctx := by
  match ha : rsvg_drawing_ctx_acquire_node ctx url with
  | (none, ctxa) =>
    have hctxa : ctxa = ctx := acquire_node_none_eq ctx url ctxa ha
    rw [rsvg_drawing_ctx_acquire_node_of_type, ha] at h
    simp [rsvg_drawing_ctx_release_node, Outcome.continueCtx] at h
    rw [← h, hctxa]
  | (some n, ctxa) =>
    have hctxa : ctxa = { ctx with acquired_nodes := n :: ctx.acquired_nodes } :=
      acquire_node_some_eq ctx url n ctxa ha
    rw [rsvg_drawing_ctx_acquire_node_of_type, ha] at h
    by_cases hty : n.nodeType = ty
    · simp [hty] at h
    · subst hctxa
      simp [hty, rsvg_drawing_ctx_release_node, Outcome.continueCtx] at h
      exact h.symm

/-- Helper: a successful typed acquisition is a successful untyped
acquisition of a node of the requested kind. -/
theorem acquire_of_type_some_eq (ctx : RsvgDrawingCtx) (url : Option String)
    (ty : RsvgNodeType) (n : RsvgNode) (ctx1 : RsvgDrawingCtx)
    (h : rsvg_drawing_ctx_acquire_node_of_type ctx url ty = (some n, ctx1)) :
    ctx1 = { ctx with acquired_nodes := n :: ctx.acquired_nodes } ∧
      n.nodeType = ty ∧
      rsvg_drawing_ctx_acquire_node ctx url = (some n, ctx1) := by
  match ha : rsvg_drawing_ctx_acquire_node ctx url with
  | (none, ctxa) =>
    rw [rsvg_drawing_ctx_acquire_node_of_type, ha] at h
    simp at h
  | (some m, ctxa) =>
    have hctxa : ctxa = { ctx with acquired_nodes := m :: ctx.acquired_nodes } :=
      acquire_node_some_eq ctx url m ctxa ha
    rw [rsvg_drawing_ctx_acquire_node_of_type, ha] at h
    by_cases hty : m.nodeType = ty
    · simp [hty] at h
      obtain ⟨hmn, hc⟩ := h
      refine ⟨?_, ?_, ?_⟩ <;> simp_all
    · simp [hty] at h

/-- C8: the typed acquisition variant.  If the identifier resolves (and
is acquired) but the node kind differs from the requested kind, the
acquisition is released again and none is returned with the context
restored exactly (no entry leaks); on a kind match it returns precisely
what the untyped acquire returned. -/
theorem acquire_node_of_type_atomic (ctx : RsvgDrawingCtx) (url : Option String)
    (ty : RsvgNodeType) :
    (∀ n ctx1, rsvg_drawing_ctx_acquire_node ctx url = (some n, ctx1) →
      n.nodeType ≠ ty →
      rsvg_drawing_ctx_acquire_node_of_type ctx url ty = (none, ctx)) ∧
    (∀ n ctx1, rsvg_drawing_ctx_acquire_node ctx url = (some n, ctx1) →
      n.nodeType = ty →
      rsvg_drawing_ctx_acquire_node_of_type ctx url ty = (some n, ctx1)) := by
  constructor
  · intro n ctx1 hacq hty
    have hctx1 : ctx1 = { ctx with acquired_nodes := n :: ctx.acquired_nodes } :=
      acquire_node_some_eq ctx url n ctx1 hacq
    rw [rsvg_drawing_ctx_acquire_node_of_type, hacq]
    simp only [hty, if_false]
    subst hctx1
    simp [rsvg_drawing_ctx_release_node, Outcome.continueCtx]
  · intro n ctx1 hacq hty
    rw [rsvg_drawing_ctx_acquire_node_of_type, hacq]
    simp [hty]

/-- Witness for C8: at `ctx0`, asking for identifier "a" (a clip-path
node) with the mask kind restores the context; asking with the clip-path
kind matches the untyped acquisition. -/
theorem acquire_node_of_type_atomic_witness :
    rsvg_drawing_ctx_acquire_node_of_type ctx0 (some "a") RsvgNodeType.maskNode =
      (none, ctx0) ∧
    rsvg_drawing_ctx_acquire_node_of_type ctx0 (some "a") RsvgNodeType.clipPathNode =
      (some nodeA, { ctx0 with acquired_nodes := [nodeA] }) := by
  refine ⟨(acquire_node_of_type_atomic ctx0 (some "a") RsvgNodeType.maskNode).1 nodeA
            { ctx0 with acquired_nodes := [nodeA] } (by decide) (by decide),
          (acquire_node_of_type_atomic ctx0 (some "a") RsvgNodeType.clipPathNode).2 nodeA
            { ctx0 with acquired_nodes := [nodeA] } (by decide) (by decide)⟩

/-- Helper: under the walker contract, the state push, child draw and
state pop around a clip or mask excursion restore the style state and
touch only the open bounding boxes. -/
theorem draw_excursion_eq (f : RsvgNode → RsvgDrawingCtx → RsvgDrawingCtx)
    (hf : PreservesDraw f) (n : RsvgNode) (ctx : RsvgDrawingCtx) :
    rsvg_drawing_ctx_state_pop (f n (rsvg_drawing_ctx_state_push ctx)) =
      { ctx with
        bbox := (f n (rsvg_drawing_ctx_state_push ctx)).bbox
        ink_bbox := (f n (rsvg_drawing_ctx_state_push ctx)).ink_bbox } := by
  conv_lhs => rw [hf n (rsvg_drawing_ctx_state_push ctx)]
  simp [rsvg_drawing_ctx_state_push, rsvg_drawing_ctx_state_pop]

/-- Helper: under the walker contract, evaluating a clip path leaves the
whole context unchanged apart from one more clip applied to the active
target. -/
theorem clip_net_effect (f : RsvgNode → RsvgDrawingCtx → RsvgDrawingCtx)
    (hf : PreservesDraw f) (ctx : RsvgDrawingCtx) (node : RsvgNode) (b : Option RsvgBbox)
    (hn : node.nodeType = RsvgNodeType.clipPathNode) :
    rsvg_cairo_clip f ctx node b =
      Outcome.normal { ctx with cr := { ctx.cr with clips := ctx.cr.clips + 1 } } := by
  simp [rsvg_cairo_clip, hn, draw_excursion_eq f hf]

/-- C9: whenever `rsvg_cairo_clip` completes normally, the drawing
context's geometry and ink bounding boxes after the call equal their
values before the call, for every possible behaviour of the clip-path's
child drawing (which runs inside the call and may insert anything into
the boxes during the excursion). -/
theorem clip_restores_bboxes (f : RsvgNode → RsvgDrawingCtx → RsvgDrawingCtx)
    (ctx : RsvgDrawingCtx) (node : RsvgNode) (b : Option RsvgBbox) (ctx1 : RsvgDrawingCtx)
    (h : rsvg_cairo_clip f ctx node b = Outcome.normal ctx1) :
    ctx1.bbox = ctx.bbox ∧ ctx1.ink_bbox = ctx.ink_bbox := by
  rw [rsvg_cairo_clip] at h
  by_cases hn : node.nodeType = RsvgNodeType.clipPathNode
  · rw [if_neg (by simp [hn])] at h
    dsimp only at h
    generalize rsvg_drawing_ctx_state_pop
      (f (clip_path_effective_node node b) (rsvg_drawing_ctx_state_push ctx)) = ctxd at h
    split at h
    · cases h
    · split at h
      · cases h
      · cases h
        exact ⟨rfl, rfl⟩
  · rw [if_pos (by simp [hn])] at h
    cases h

/-- Witness for C9: a child drawing that dirties both boxes, run through
`rsvg_cairo_clip` at the concrete context `ctx0`, leaves both boxes as
they were. -/
theorem clip_restores_bboxes_witness :
    ctxClipRes.bbox = ctx0.bbox ∧ ctxClipRes.ink_bbox = ctx0.ink_bbox :=
  clip_restores_bboxes drawTrash ctx0 nodeA none ctxClipRes (by decide)

/-- Helper: under the walker contract, the clip prologue of a layer
entry returns the deferred-clip flag computed by `lateclipAt` and leaves
the context unchanged except possibly for a clip applied to the active
target. -/
theorem pushRenderClipStep_eq (f : RsvgNode → RsvgDrawingCtx → RsvgDrawingCtx)
    (hf : PreservesDraw f) (ctx : RsvgDrawingCtx) :
    ∃ cr1, pushRenderClipStep f ctx = Outcome.normal (lateclipAt ctx, { ctx with cr := cr1 }) := by
  rw [pushRenderClipStep, lateclipAt]
  match hcp : ctx.state.clip_path with
  | none => exact ⟨ctx.cr, rfl⟩
  | some url =>
    match ha : rsvg_drawing_ctx_acquire_node_of_type ctx (some url) RsvgNodeType.clipPathNode with
    | (none, ctx1) =>
      have hc1 : ctx1 = ctx := acquire_of_type_none_eq ctx (some url) RsvgNodeType.clipPathNode ctx1 ha
      subst hc1
      exact ⟨ctx1.cr, by simp [ha]⟩
    | (some node, ctx1) =>
      obtain ⟨hc1, hnt, _⟩ := acquire_of_type_some_eq ctx (some url) RsvgNodeType.clipPathNode node ctx1 ha
      match hu : node.clipPathUnits with
      | RsvgCoordUnits.userSpaceOnUse =>
        refine ⟨{ ctx.cr with clips := ctx.cr.clips + 1 }, ?_⟩
        simp only [ha, hu]
        rw [clip_net_effect f hf ctx1 node none hnt]
        subst hc1
        simp [rsvg_drawing_ctx_release_node, Outcome.continueCtx]
      | RsvgCoordUnits.objectBoundingBox =>
        refine ⟨ctx.cr, ?_⟩
        simp only [ha, hu]
        subst hc1
        simp [rsvg_drawing_ctx_release_node, Outcome.continueCtx]

/-- Helper: when no deferred clip applies, the clip prologue of a layer
exit is a no-op. -/
theorem popRenderClipStep_no_lateclip (ctx : RsvgDrawingCtx) (h : lateclipAt ctx = false) :
    popRenderClipStep ctx = (none, ctx) := by
  rw [popRenderClipStep]
  rw [lateclipAt] at h
  match hcp : ctx.state.clip_path with
  | none => rfl
  | some url =>
    match ha : rsvg_drawing_ctx_acquire_node_of_type ctx (some url) RsvgNodeType.clipPathNode with
    | (none, ctx1) =>
      have hc1 : ctx1 = ctx := acquire_of_type_none_eq ctx (some url) RsvgNodeType.clipPathNode ctx1 ha
      subst hc1
      simp [ha]
    | (some node, ctx1) =>
      obtain ⟨hc1, _, _⟩ := acquire_of_type_some_eq ctx (some url) RsvgNodeType.clipPathNode node ctx1 ha
      match hu : node.clipPathUnits with
      | RsvgCoordUnits.userSpaceOnUse =>
        simp only [ha, hu]
        subst hc1
        simp [rsvg_drawing_ctx_release_node, Outcome.continueCtx]
      | RsvgCoordUnits.objectBoundingBox =>
        rw [hcp] at h
        simp only [ha, hu] at h
        exact Bool.noConfusion h

/-- C3: for every layer entry, an offscreen surface is allocated if and
only if the fast-path condition (opacity 0xFF, no filter, no mask, no
deferred objectBoundingBox clip, OVER compositing, default
accumulate-background mode) fails; when the condition holds the entry
allocates nothing and leaves the target stack, the surfaces stack, both
bounding-box stacks and the acquisition list untouched (the whole
context unchanged but for a possible immediate userSpaceOnUse clip on
the active target), and the matching layer exit does nothing at all. -/
theorem push_render_stack_fast_path (f : RsvgNode → RsvgDrawingCtx → RsvgDrawingCtx)
    (hf : PreservesDraw f) (allocStatus : CairoStatus)
    (bboxInsert : RsvgBbox → RsvgBbox → RsvgBbox)
    (filterRender : RsvgNode → CairoSurface → CairoSurface)
    (maskAllocStatus : CairoStatus) (maskRenderedPixels : List (List Nat))
    (ctx : RsvgDrawingCtx) :
    (∀ res, rsvg_cairo_push_render_stack f allocStatus ctx = Outcome.normal res →
      (res.allocated = none ↔ renderStackFastPath ctx.state (lateclipAt ctx))) ∧
    (renderStackFastPath ctx.state (lateclipAt ctx) →
      ∃ cr1, rsvg_cairo_push_render_stack f allocStatus ctx =
          Outcome.normal ⟨{ ctx with cr := cr1 }, none⟩ ∧
        rsvg_cairo_pop_render_stack f bboxInsert filterRender maskAllocStatus
            maskRenderedPixels ctx =
          Outcome.normal ⟨ctx, CompositeAction.noPaint, true⟩) := by
  obtain ⟨cr1, hstep⟩ := pushRenderClipStep_eq f hf ctx
  constructor
  · intro res hres
    rw [rsvg_cairo_push_render_stack, hstep] at hres
    dsimp only at hres
    by_cases hfp : renderStackFastPath ctx.state (lateclipAt ctx)
    · rw [if_pos hfp] at hres
      cases hres
      exact ⟨fun _ => hfp, fun _ => rfl⟩
    · rw [if_neg hfp] at hres
      cases hres
      simp [hfp]
  · intro hfp
    have h4 : lateclipAt ctx = false := hfp.2.2.2.1
    refine ⟨cr1, ?_, ?_⟩
    · rw [rsvg_cairo_push_render_stack, hstep]
      dsimp only
      rw [if_pos hfp]
    · rw [rsvg_cairo_pop_render_stack]
      dsimp only
      rw [popRenderClipStep_no_lateclip ctx h4]
      dsimp only [Option.isSome]
      rw [if_pos (h4 ▸ hfp)]

/-- Witness for C3 at the concrete fast-path context `ctx0`: nothing is
allocated and the exit does nothing. -/
theorem push_render_stack_fast_path_witness :
    rsvg_cairo_pop_render_stack (fun _ c => c) (fun b _ => b) (fun _ s => s)
        CairoStatus.success [] ctx0 =
      Outcome.normal ⟨ctx0, CompositeAction.noPaint, true⟩ ∧
    rsvg_cairo_push_render_stack (fun _ c => c) CairoStatus.success ctx0 =
      Outcome.normal ⟨ctx0, none⟩ := by
  have h := (push_render_stack_fast_path (fun _ c => c) (fun _ _ => rfl) CairoStatus.success
    (fun b _ => b) (fun _ s => s) CairoStatus.success [] ctx0).2 (by decide)
  obtain ⟨cr1, _, h2⟩ := h
  exact ⟨h2, by decide⟩

/-- Helper: when the deferred clip applies, the clip prologue of a layer
exit returns the clip-path node and keeps it acquired. -/
theorem popRenderClipStep_lateclip (ctx : RsvgDrawingCtx) (h : lateclipAt ctx = true) :
    ∃ node, popRenderClipStep ctx =
        (some node, { ctx with acquired_nodes := node :: ctx.acquired_nodes }) ∧
      node.nodeType = RsvgNodeType.clipPathNode := by
  rw [popRenderClipStep]
  rw [lateclipAt] at h
  match hcp : ctx.state.clip_path with
  | none => rw [hcp] at h; exact Bool.noConfusion h
  | some url =>
    rw [hcp] at h
    match ha : rsvg_drawing_ctx_acquire_node_of_type ctx (some url) RsvgNodeType.clipPathNode with
    | (none, ctx1) => simp only [ha] at h; exact Bool.noConfusion h
    | (some node, ctx1) =>
      obtain ⟨hc1, hnt, _⟩ := acquire_of_type_some_eq ctx (some url) RsvgNodeType.clipPathNode node ctx1 ha
      match hu : node.clipPathUnits with
      | RsvgCoordUnits.userSpaceOnUse => simp only [ha, hu] at h; exact Bool.noConfusion h
      | RsvgCoordUnits.objectBoundingBox =>
        refine ⟨node, ?_, hnt⟩
        simp only [ha, hu]
        rw [hc1]

/-- Helper: a layer exit's filter block can only change the surfaces
stack of the context (the element acquisition it performs is balanced by
its release). -/
theorem popRenderFilterStep_eq (fr : RsvgNode → CairoSurface → CairoSurface)
    (ct : CairoSurface) (ctx : RsvgDrawingCtx) (t : CairoSurface × Bool × RsvgDrawingCtx)
    (h : popRenderFilterStep fr ct ctx = Outcome.normal t) :
    t.2.2 = { ctx with surfaces_stack := t.2.2.surfaces_stack } := by
  rw [popRenderFilterStep] at h
  match hfr : ctx.state.filterRef with
  | none =>
    simp only [hfr] at h
    cases h
    rfl
  | some fu =>
    simp only [hfr] at h
    match hs : ctx.surfaces_stack with
    | [] => rw [hs] at h; cases h
    | output :: rest =>
      rw [hs] at h
      match ha : rsvg_drawing_ctx_acquire_node_of_type
          { ctx with surfaces_stack := rest } (some fu) RsvgNodeType.filterElement with
      | (none, ctx2) =>
        have hc2 : ctx2 = { ctx with surfaces_stack := rest } :=
          acquire_of_type_none_eq _ (some fu) RsvgNodeType.filterElement ctx2 ha
        simp only [ha] at h
        cases h
        rw [hc2]
      | (some node, ctx2) =>
        obtain ⟨hc2, _, _⟩ := acquire_of_type_some_eq _ (some fu) RsvgNodeType.filterElement node ctx2 ha
        simp only [ha] at h
        subst hc2
        rw [release_node_head _ node ctx.acquired_nodes (by simp)] at h
        cases h
        rfl

/-- Helper: the deferred-clip block with no deferred clip does
nothing. -/
theorem popRenderLateclipStep_none (f : RsvgNode → RsvgDrawingCtx → RsvgDrawingCtx)
    (ctx : RsvgDrawingCtx) : popRenderLateclipStep f none ctx = Outcome.normal ctx :=
  rfl

/-- Helper: under the walker contract, the deferred-clip block applies
the clip to the restored target and releases the clip-path node it had
kept acquired. -/
theorem popRenderLateclipStep_some (f : RsvgNode → RsvgDrawingCtx → RsvgDrawingCtx)
    (hf : PreservesDraw f) (node : RsvgNode) (rest : List RsvgNode) (ctx : RsvgDrawingCtx)
    (hn : node.nodeType = RsvgNodeType.clipPathNode)
    (ha : ctx.acquired_nodes = node :: rest) :
    popRenderLateclipStep f (some node) ctx =
      Outcome.normal
        { ctx with
          acquired_nodes := rest
          cr := { ctx.cr with clips := ctx.cr.clips + 1 } } := by
  rw [popRenderLateclipStep, clip_net_effect f hf ctx node (some ctx.bbox) hn]
  simp [rsvg_drawing_ctx_release_node, ha, Outcome.continueCtx]

/-- Helper: a reference that is unknown, of the wrong kind, or already
under acquisition makes the typed acquisition fail with the context
unchanged. -/
theorem acquire_of_type_fails (ctx : RsvgDrawingCtx) (m : String) (ty : RsvgNodeType)
    (hfail : rsvg_defs_lookup ctx.defs m = none ∨
      ∃ n, rsvg_defs_lookup ctx.defs m = some n ∧
        (n.nodeType ≠ ty ∨ n ∈ ctx.acquired_nodes)) :
    rsvg_drawing_ctx_acquire_node_of_type ctx (some m) ty = (none, ctx) := by
  rcases hfail with hnone | ⟨n, hsome, hbad⟩
  · have hacq : rsvg_drawing_ctx_acquire_node ctx (some m) = (none, ctx) := by
      simp [rsvg_drawing_ctx_acquire_node, hnone]
    rw [rsvg_drawing_ctx_acquire_node_of_type, hacq]
    rfl
  · by_cases hmem : n ∈ ctx.acquired_nodes
    · have hacq : rsvg_drawing_ctx_acquire_node ctx (some m) = (none, ctx) := by
        simp [rsvg_drawing_ctx_acquire_node, hsome, hmem]
      rw [rsvg_drawing_ctx_acquire_node_of_type, hacq]
      rfl
    · rcases hbad with hty | hmem2
      · have hacq : rsvg_drawing_ctx_acquire_node ctx (some m) =
            (some n, { ctx with acquired_nodes := n :: ctx.acquired_nodes }) := by
          simp [rsvg_drawing_ctx_acquire_node, hsome, hmem]
        rw [rsvg_drawing_ctx_acquire_node_of_type, hacq]
        simp [hty, rsvg_drawing_ctx_release_node, Outcome.continueCtx]
      · exact absurd hmem2 hmem

/-- Helper: when the mask reference cannot be acquired, the compositing
block paints nothing and leaves the context unchanged. -/
theorem popRenderMaskStep_fail (f : RsvgNode → RsvgDrawingCtx → RsvgDrawingCtx)
    (mA : CairoStatus) (mP : List (List Nat)) (m : String) (opacity : Nat)
    (ctx : RsvgDrawingCtx)
    (hfail : rsvg_defs_lookup ctx.defs m = none ∨
      ∃ n, rsvg_defs_lookup ctx.defs m = some n ∧
        (n.nodeType ≠ RsvgNodeType.maskNode ∨ n ∈ ctx.acquired_nodes)) :
    popRenderMaskStep f mA mP (some m) opacity ctx =
      Outcome.normal (CompositeAction.noPaint, ctx) := by
  rw [popRenderMaskStep, acquire_of_type_fails ctx m RsvgNodeType.maskNode hfail]

/-- Helper: with a mask reference set, the compositing block never takes
the plain-paint or uniform-alpha branches. -/
theorem popRenderMaskStep_not_plain (f : RsvgNode → RsvgDrawingCtx → RsvgDrawingCtx)
    (mA : CairoStatus) (mP : List (List Nat)) (m : String) (opacity : Nat)
    (ctx : RsvgDrawingCtx) (pr : CompositeAction × RsvgDrawingCtx)
    (h : popRenderMaskStep f mA mP (some m) opacity ctx = Outcome.normal pr) :
    pr.1 = CompositeAction.noPaint ∨ pr.1 = CompositeAction.maskPaint := by
  rw [popRenderMaskStep] at h
  match ha : rsvg_drawing_ctx_acquire_node_of_type ctx (some m) RsvgNodeType.maskNode with
  | (none, ctxa) =>
    simp only [ha] at h
    cases h
    exact Or.inl rfl
  | (some node, ctxa) =>
    simp only [ha] at h
    match hg : rsvg_cairo_generate_mask f mA mP ctxa.cr node ctxa with
    | Outcome.normal r =>
      simp only [hg] at h
      cases h
      cases r.applied
      · exact Or.inl rfl
      · exact Or.inr rfl
    | Outcome.criticalReturn r =>
      simp only [hg] at h
      cases h
      cases r.applied
      · exact Or.inl rfl
      · exact Or.inr rfl
    | Outcome.fatalAbort => rw [hg] at h; cases h
    | Outcome.memFault => rw [hg] at h; cases h

/-- Helper: the compositing block never finishes with a failed checked
precondition. -/
theorem popRenderMaskStep_not_critical (f : RsvgNode → RsvgDrawingCtx → RsvgDrawingCtx)
    (mA : CairoStatus) (mP : List (List Nat)) (mr : Option String) (op : Nat)
    (ctx : RsvgDrawingCtx) (pr : CompositeAction × RsvgDrawingCtx)
    (h : popRenderMaskStep f mA mP mr op ctx = Outcome.criticalReturn pr) : False := by
  match mr with
  | none =>
    rw [popRenderMaskStep] at h
    by_cases hop : op ≠ 0xFF
    · rw [if_pos hop] at h; cases h
    · rw [if_neg hop] at h; cases h
  | some m =>
    rw [popRenderMaskStep] at h
    match ha : rsvg_drawing_ctx_acquire_node_of_type ctx (some m) RsvgNodeType.maskNode with
    | (none, ctxa) => simp only [ha] at h; cases h
    | (some node, ctxa) =>
      simp only [ha] at h
      match hg : rsvg_cairo_generate_mask f mA mP ctxa.cr node ctxa with
      | Outcome.normal r => rw [hg] at h; cases h
      | Outcome.criticalReturn r => rw [hg] at h; cases h
      | Outcome.fatalAbort => rw [hg] at h; cases h
      | Outcome.memFault => rw [hg] at h; cases h

/-- Helper: the context reaching the compositing block of a
non-fast-path layer exit agrees with the entry context on the defs table
and on the acquisition list (the clip and filter acquisitions are all
balanced by then). -/
theorem pop_exit_mask_ctx (f : RsvgNode → RsvgDrawingCtx → RsvgDrawingCtx)
    (hf : PreservesDraw f) (fr : RsvgNode → CairoSurface → CairoSurface)
    (ct : CairoSurface) (ctx : RsvgDrawingCtx) (t : CairoSurface × Bool × RsvgDrawingCtx)
    (top : Cairo) (rest : List Cairo) (c4 : RsvgDrawingCtx)
    (hF : popRenderFilterStep fr ct (popRenderClipStep ctx).2 = Outcome.normal t)
    (hL : popRenderLateclipStep f (popRenderClipStep ctx).1
        { t.2.2 with cr := top, cr_stack := rest } = Outcome.normal c4) :
    c4.defs = ctx.defs ∧ c4.acquired_nodes = ctx.acquired_nodes := by
  cases hlc : lateclipAt ctx with
  | false =>
    rw [popRenderClipStep_no_lateclip ctx hlc] at hF hL
    have heq := popRenderFilterStep_eq fr ct ctx t hF
    rw [popRenderLateclipStep_none] at hL
    cases hL
    constructor
    · show ({ t.2.2 with cr := top, cr_stack := rest } : RsvgDrawingCtx).defs = ctx.defs
      rw [heq]
    · show ({ t.2.2 with cr := top, cr_stack := rest } : RsvgDrawingCtx).acquired_nodes =
        ctx.acquired_nodes
      rw [heq]
  | true =>
    obtain ⟨node, hstep, hnt⟩ := popRenderClipStep_lateclip ctx hlc
    rw [hstep] at hF hL
    have heq := popRenderFilterStep_eq fr ct
      { ctx with acquired_nodes := node :: ctx.acquired_nodes } t hF
    have haq3 : ({ t.2.2 with cr := top, cr_stack := rest } : RsvgDrawingCtx).acquired_nodes =
        node :: ctx.acquired_nodes := by rw [heq]
    rw [popRenderLateclipStep_some f hf node ctx.acquired_nodes _ hnt haq3] at hL
    cases hL
    constructor
    · show ({ { t.2.2 with cr := top, cr_stack := rest } with
          acquired_nodes := ctx.acquired_nodes,
          cr := { ({ t.2.2 with cr := top, cr_stack := rest } : RsvgDrawingCtx).cr with
                  clips := ({ t.2.2 with cr := top, cr_stack := rest } :
                    RsvgDrawingCtx).cr.clips + 1 } } : RsvgDrawingCtx).defs = ctx.defs
      rw [heq]
    · rfl

/-- C10: on a non-fast-path layer exit whose style sets a mask reference
that cannot be acquired (unknown identifier, wrong element kind, or a
reference cycle), nothing at all is composited onto the restored target
— the layer content is silently dropped — and the plain-paint and
uniform-alpha compositing branches can only ever run when no mask
reference is set. -/
theorem pop_render_stack_mask_drop (f : RsvgNode → RsvgDrawingCtx → RsvgDrawingCtx)
    (hf : PreservesDraw f) (bboxInsert : RsvgBbox → RsvgBbox → RsvgBbox)
    (filterRender : RsvgNode → CairoSurface → CairoSurface)
    (maskAllocStatus : CairoStatus) (maskRenderedPixels : List (List Nat))
    (ctx : RsvgDrawingCtx) :
    (∀ m res, ctx.state.mask = some m →
      (rsvg_defs_lookup ctx.defs m = none ∨
        ∃ n, rsvg_defs_lookup ctx.defs m = some n ∧
          (n.nodeType ≠ RsvgNodeType.maskNode ∨ n ∈ ctx.acquired_nodes)) →
      rsvg_cairo_pop_render_stack f bboxInsert filterRender maskAllocStatus
          maskRenderedPixels ctx =
        Outcome.normal res →
      res.composite = CompositeAction.noPaint ∧ res.tookFastPath = false) ∧
    (∀ res, rsvg_cairo_pop_render_stack f bboxInsert filterRender maskAllocStatus
          maskRenderedPixels ctx =
        Outcome.normal res →
      (res.composite = CompositeAction.plainPaint ∨
        ∃ a, res.composite = CompositeAction.alphaPaint a) →
      ctx.state.mask = none) := by
  constructor
  · intro m res hm hfail hrun
    rw [rsvg_cairo_pop_render_stack] at hrun
    dsimp only at hrun
    split at hrun
    · rename_i hfp
      exact absurd (hm.symm.trans hfp.2.2.1) (fun hco => Option.noConfusion hco)
    · rename_i hfp
      split at hrun
      · cases hrun
      · cases hrun
      · rename_i t hF
        cases hrun
        exact ⟨rfl, rfl⟩
      · rename_i t hF
        split at hrun
        · cases hrun
        · rename_i top rest hcs
          split at hrun
          · cases hrun
          · cases hrun
          · rename_i c4 hL
            cases hrun
            exact ⟨rfl, rfl⟩
          · rename_i c4 hL
            rw [hm] at hrun
            split at hrun
            · cases hrun
            · cases hrun
            · rename_i pr hM
              exact absurd hM (fun hM2 => popRenderMaskStep_not_critical f maskAllocStatus
                maskRenderedPixels (some m) ctx.state.opacity c4 pr hM2)
            · rename_i pr hM
              obtain ⟨hdefs, hacq⟩ := pop_exit_mask_ctx f hf filterRender ctx.cr.target
                ctx t top rest c4 hF hL
              have hfail4 : rsvg_defs_lookup c4.defs m = none ∨
                  ∃ n, rsvg_defs_lookup c4.defs m = some n ∧
                    (n.nodeType ≠ RsvgNodeType.maskNode ∨ n ∈ c4.acquired_nodes) := by
                rw [hdefs, hacq]
                exact hfail
              have hMval := popRenderMaskStep_fail f maskAllocStatus maskRenderedPixels m
                ctx.state.opacity c4 hfail4
              have hpr := hMval.symm.trans hM
              cases hpr
              split at hrun
              · cases hrun
              · cases hrun
              · cases hrun
                exact ⟨rfl, rfl⟩
              · cases hrun
                exact ⟨rfl, rfl⟩
  · intro res hrun hpa
    rw [rsvg_cairo_pop_render_stack] at hrun
    dsimp only at hrun
    by_cases hmask : ∃ m, ctx.state.mask = some m
    · obtain ⟨m, hm⟩ := hmask
      split at hrun
      · cases hrun
        rcases hpa with h | ⟨a, h⟩ <;> cases h
      · split at hrun
        · cases hrun
        · cases hrun
        · rename_i t hF
          cases hrun
          rcases hpa with h | ⟨a, h⟩ <;> cases h
        · rename_i t hF
          split at hrun
          · cases hrun
          · rename_i top rest hcs
            split at hrun
            · cases hrun
            · cases hrun
            · rename_i c4 hL
              cases hrun
              rcases hpa with h | ⟨a, h⟩ <;> cases h
            · rename_i c4 hL
              rw [hm] at hrun
              split at hrun
              · cases hrun
              · cases hrun
              · rename_i pr hM
                exact absurd hM (fun hM2 => popRenderMaskStep_not_critical f maskAllocStatus
                  maskRenderedPixels (some m) ctx.state.opacity c4 pr hM2)
              · rename_i pr hM
                have hnp := popRenderMaskStep_not_plain f maskAllocStatus maskRenderedPixels m
                  ctx.state.opacity c4 pr hM
                split at hrun
                · cases hrun
                · cases hrun
                · cases hrun
                  rcases hnp with h1 | h1 <;> rcases hpa with h | ⟨a, h⟩ <;>
                    (rw [h1] at h; cases h)
                · cases hrun
                  rcases hnp with h1 | h1 <;> rcases hpa with h | ⟨a, h⟩ <;>
                    (rw [h1] at h; cases h)
    · match ho : ctx.state.mask with
      | none => rfl
      | some m => exact absurd ⟨m, ho⟩ hmask

/-- Witness for C10 at the concrete context `ctxMasked`, whose mask
reference "nomask" is unknown: the exit paints nothing. -/
theorem pop_render_stack_mask_drop_witness :
    popMaskedRes.composite = CompositeAction.noPaint ∧
    popMaskedRes.tookFastPath = false :=
  (pop_render_stack_mask_drop (fun _ c => c) (fun _ _ => rfl) (fun b _ => b) (fun _ s => s)
    CairoStatus.success [] ctxMasked).1 "nomask" popMaskedRes rfl (Or.inl (by decide))
    (by decide)

/-- C4 counterexample: a failed offscreen allocation at layer entry is
not detected (the status check is compiled out): the push does not
abandon the subtree — it installs the dead surface as the active render
target and saves the old target on the stack. -/
theorem push_alloc_unchecked_counterexample :
    rsvg_cairo_push_render_stack (fun _ c => c) CairoStatus.noMemory ctxC4 =
      Outcome.normal pushFailRes ∧
    rsvg_cairo_push_render_stack (fun _ c => c) CairoStatus.noMemory ctxC4 ≠
      Outcome.normal ⟨ctxC4, none⟩ ∧
    pushFailRes.ctx.cr.target.status = CairoStatus.noMemory ∧
    pushFailRes.ctx.cr_stack = [cairo0] := by
  refine ⟨by decide, by decide, rfl, rfl⟩

/-- C4 (amended): of the two offscreen allocations of the render pass,
only mask generation detects an allocation failure and recovers at the
call site (the mask is abandoned before the surface is ever used, the
context unchanged, nothing composited); layer entry performs no status
check — whatever surface the allocator returns, failed or not, becomes
the target of the new child cr. -/
theorem alloc_failure_handling (f : RsvgNode → RsvgDrawingCtx → RsvgDrawingCtx) :
    (∀ mPix cr mask ctx, mask.nodeType = RsvgNodeType.maskNode →
      rsvg_cairo_generate_mask f CairoStatus.noMemory mPix cr mask ctx =
        Outcome.normal ⟨ctx, false, []⟩) ∧
    (∀ allocStatus ctx res s,
      rsvg_cairo_push_render_stack f allocStatus ctx = Outcome.normal res →
      res.allocated = some s →
      s.status = allocStatus ∧ res.ctx.cr.target = s) := by
  constructor
  · intro mPix cr mask ctx hmask
    rw [rsvg_cairo_generate_mask, if_neg (by simp [hmask])]
    dsimp only
    rw [if_pos (by decide)]
  · intro allocStatus ctx res s hres hs
    rw [rsvg_cairo_push_render_stack] at hres
    dsimp only at hres
    split at hres
    · cases hres
    · cases hres
    · cases hres
      cases hs
    · split at hres
      · cases hres
        cases hs
      · cases hres
        cases hs
        constructor
        · cases hfr : ctx.state.filterRef <;> simp [hfr]
        · cases hfr : ctx.state.filterRef <;> simp [hfr, push_bounding_box]

/-- Witness for C4's amended theorem: concrete mask-generation
abandonment and concrete installation of the failed surface at layer
entry. -/
theorem alloc_failure_handling_witness :
    rsvg_cairo_generate_mask (fun _ c => c) CairoStatus.noMemory [] cairo0 nodeB ctx0 =
      Outcome.normal ⟨ctx0, false, []⟩ ∧
    surfFail.status = CairoStatus.noMemory ∧ pushFailRes.ctx.cr.target = surfFail := by
  refine ⟨(alloc_failure_handling (fun _ c => c)).1 [] cairo0 nodeB ctx0 (by decide), ?_⟩
  exact (alloc_failure_handling (fun _ c => c)).2 CairoStatus.noMemory ctxC4 pushFailRes
    surfFail (by decide) (by decide)

/-- Helper: `getD` commutes with `map` for a zero-preserving function on
pixel rows. -/
theorem getD_map_zero (g : Nat → Nat) (hg : g 0 = 0) :
    ∀ (l : List Nat) (i : Nat), (l.map g).getD i 0 = g (l.getD i 0) := by
  intro l
  induction l with
  | nil => intro i; simp [hg]
  | cons x xs ih =>
    intro i
    cases i with
    | zero => rfl
    | succ j => simpa using ih j

/-- Helper: `getD` commutes with `map` for a nil-preserving row
transformer. -/
theorem getD_map_nil (F : List Nat → List Nat) (hF : F [] = []) :
    ∀ (L : List (List Nat)) (r : Nat), (L.map F).getD r [] = F (L.getD r []) := by
  intro L
  induction L with
  | nil => intro r; simp [hF]
  | cons x xs ih =>
    intro r
    cases r with
    | zero => rfl
    | succ j => simpa using ih j

/-- Helper: the luminance weighting of the zero pixel is zero under any
opacity, and of any pixel under zero opacity. -/
theorem maskPixel_zero (p opacity : Nat) : maskPixel 0 opacity = 0 ∧ maskPixel p 0 = 0 := by
  constructor
  · simp [maskPixel, Nat.zero_and]
  · simp [maskPixel]

/-- C5: the mask-generation loop rewrites every pixel of every scanline
as `((R * 14042 + G * 47240 + B * 4769) * opacity)` with each channel
taken from its byte position; the resulting most significant byte maps
an opaque white pixel at full element opacity to 0xFF and an opaque
black pixel to 0x00, element opacity 0 produces alpha 0 for every pixel
regardless of colour, and each integer weight is within one unit of the
corresponding reference ratio 0.2126 / 0.7152 / 0.0722 scaled to the
32-bit product space `0xFFFFFFFF / (255 * 255)`. -/
theorem luminance_mask_conversion (rows : List (List Nat)) (opacity r i pixel : Nat) :
    (((luminanceToAlphaRows rows opacity).getD r []).getD i 0 =
      maskPixel ((rows.getD r []).getD i 0) opacity) ∧
    maskAlpha 0x00FFFFFF 255 = 0xFF ∧
    maskAlpha 0x00000000 255 = 0x00 ∧
    maskAlpha pixel 0 = 0 ∧
    |(14042 : ℚ) - 4294967295 * (2126 / 10000) / (255 * 255)| ≤ 1 ∧
    |(47240 : ℚ) - 4294967295 * (7152 / 10000) / (255 * 255)| ≤ 1 ∧
    |(4769 : ℚ) - 4294967295 * (722 / 10000) / (255 * 255)| ≤ 1 := by
  refine ⟨?_, by decide, by decide, ?_, by norm_num [abs_le], by norm_num [abs_le],
    by norm_num [abs_le]⟩
  · rw [luminanceToAlphaRows, getD_map_nil _ rfl rows r]
    exact getD_map_zero _ (maskPixel_zero 0 opacity).1 (rows.getD r []) i
  · rw [maskAlpha, (maskPixel_zero pixel 0).2]
    rfl

/-- Helper: masking a byte field and shifting it down extracts that byte
as a quotient-remainder expression. -/
theorem and_byteMask_shr (x k : Nat) :
    (x &&& ((2 ^ 8 - 1) <<< k)) >>> k = x / 2 ^ k % 2 ^ 8 := by
  apply Nat.eq_of_testBit_eq
  intro j
  rw [Nat.testBit_shiftRight, Nat.testBit_and, Nat.testBit_shiftLeft,
    Nat.testBit_two_pow_sub_one]
  rw [← Nat.shiftRight_eq_div_pow, Nat.testBit_mod_two_pow, Nat.testBit_shiftRight]
  have h1 : k + j ≥ k := Nat.le_add_right k j
  have h2 : k + j - k = j := by omega
  simp [h1, h2, Bool.and_comm]

/-- Helper: the three byte extractions used by the pixel conversions,
written with the literal masks of the C source. -/
theorem and_ff0000_shr (x : Nat) : (x &&& 0xff0000) >>> 16 = x / 2 ^ 16 % 2 ^ 8 := by
  have hm : (0xff0000 : Nat) = (2 ^ 8 - 1) <<< 16 := by norm_num [Nat.shiftLeft_eq]
  rw [hm, and_byteMask_shr]

theorem and_ff00_shr (x : Nat) : (x &&& 0xff00) >>> 8 = x / 2 ^ 8 % 2 ^ 8 := by
  have hm : (0xff00 : Nat) = (2 ^ 8 - 1) <<< 8 := by norm_num [Nat.shiftLeft_eq]
  rw [hm, and_byteMask_shr]

theorem and_ff_eq (x : Nat) : x &&& 0xff = x % 2 ^ 8 := by
  have hm : (0xff : Nat) = 2 ^ 8 - 1 := by norm_num
  rw [hm, Nat.and_pow_two_sub_one_eq_mod]

/-- Helper: unpacking the four bytes of a little-endian ARGB32 word. -/
theorem pack_unpack (q0 q1 q2 q3 : Nat) (h0 : q0 < 256) (h1 : q1 < 256) (h2 : q2 < 256)
    (h3 : q3 < 256) :
    (q0 + q1 * 2 ^ 8 + q2 * 2 ^ 16 + q3 * 2 ^ 24) >>> 24 = q3 ∧
    ((q0 + q1 * 2 ^ 8 + q2 * 2 ^ 16 + q3 * 2 ^ 24) &&& 0xff0000) >>> 16 = q2 ∧
    ((q0 + q1 * 2 ^ 8 + q2 * 2 ^ 16 + q3 * 2 ^ 24) &&& 0xff00) >>> 8 = q1 ∧
    (q0 + q1 * 2 ^ 8 + q2 * 2 ^ 16 + q3 * 2 ^ 24) &&& 0xff = q0 := by
  rw [Nat.shiftRight_eq_div_pow, and_ff0000_shr, and_ff00_shr, and_ff_eq]
  refine ⟨?_, ?_, ?_, ?_⟩ <;> omega

/-- Helper: linear-arithmetic core of the round-trip error bound, stated
over the premultiplied product and the rounding-division decomposition
as abstract quantities. -/
theorem roundtrip_dist_aux (a M Y B rem : Nat) (ha : a ≤ 255) (ha1 : 1 ≤ a)
    (h1 : 255 * M ≤ Y + 127) (h2 : Y ≤ 255 * M + 128)
    (hB : B + rem = M * 255 + a / 2) (hrem : rem < a) :
    Nat.dist B Y ≤ 255 := by
  simp only [Nat.dist]
  omega

/-- Helper: the `MULT` shift-based premultiply approximates exact scaling
by 255 tightly: 255 times its result stays within [c*a - 128, c*a + 127],
and the result never exceeds the alpha. -/
theorem MULT_div_bounds (c a : Nat) (hc : c ≤ 255) (ha : a ≤ 255) :
    255 * MULT c a ≤ c * a + 127 ∧ c * a ≤ 255 * MULT c a + 128 ∧ MULT c a ≤ a := by
  have hMeq : MULT c a = ((c * a + 127) / 256 + (c * a + 127)) / 256 := by
    simp [MULT, Nat.shiftRight_eq_div_pow]
  have hxa : c * a ≤ 255 * a := Nat.mul_le_mul_right a hc
  rw [hMeq]
  generalize c * a = x at hxa ⊢
  omega

/-- Helper: the quantitative behaviour of the `MULT` premultiply and the
`convert_alpha` rounding division over all byte pairs: the premultiplied
channel never exceeds the alpha, the round trip is exact at alpha 255,
and for every nonzero alpha the round-trip error scaled by the alpha
stays within 255. -/
theorem MULT_roundtrip_core : ∀ a < 256, ∀ c < 256,
    MULT c a ≤ a ∧
    (a = 255 → (MULT c a * 255 + a / 2) / a = c) ∧
    (1 ≤ a → Nat.dist ((MULT c a * 255 + a / 2) / a) c * a ≤ 255) := by
  intro a ha c hc
  obtain ⟨h1, h2, hle⟩ := MULT_div_bounds c a (by omega) (by omega)
  refine ⟨hle, ?_, ?_⟩
  · intro h255
    subst h255
    have hMeq : MULT c 255 = ((c * 255 + 127) / 256 + (c * 255 + 127)) / 256 := by
      simp [MULT, Nat.shiftRight_eq_div_pow]
    rw [hMeq]
    omega
  · intro ha1
    rw [← Nat.dist_mul_right]
    exact roundtrip_dist_aux a (MULT c a) (c * a)
      ((MULT c a * 255 + a / 2) / a * a) ((MULT c a * 255 + a / 2) % a)
      (by omega) ha1 h1 h2
      (by rw [Nat.mul_comm ((MULT c a * 255 + a / 2) / a) a]; exact Nat.div_add_mod _ a)
      (Nat.mod_lt _ (by omega))

/-- Helper: premultiplying any channel by alpha 0 gives the zero byte. -/
theorem MULT_zero (c : Nat) : MULT c 0 = 0 := by
  simp [MULT]

/-- Helper: `convert_alpha_pixel` on a packed little-endian ARGB32 word
with in-range bytes. -/
theorem convert_alpha_pixel_packed (q0 q1 q2 q3 : Nat) (h0 : q0 < 256) (h1 : q1 < 256)
    (h2 : q2 < 256) (h3 : q3 < 256) :
    convert_alpha_pixel (q0 + q1 * 2 ^ 8 + q2 * 2 ^ 16 + q3 * 2 ^ 24) =
      if q3 = 0 then [0, 0, 0, 0]
      else [(q2 * 255 + q3 / 2) / q3 % 2 ^ 8,
            (q1 * 255 + q3 / 2) / q3 % 2 ^ 8,
            (q0 * 255 + q3 / 2) / q3 % 2 ^ 8, q3] := by
  obtain ⟨e3, e2, e1, e0⟩ := pack_unpack q0 q1 q2 q3 h0 h1 h2 h3
  rw [convert_alpha_pixel]
  rw [e3, e2, e1, e0]
  by_cases hq : q3 = 0
  · simp [hq]
  · simp [hq]

/-- C6 counterexample: the straight-premultiplied-straight round trip is
not exact at alpha 0 (the colour information is destroyed), and an
intermediate alpha can be off by far more than one unit per channel
(channel 100 at alpha 1 comes back as 0). -/
theorem premult_round_trip_counterexample :
    premultRoundTrip 255 0 0 0 = [0, 0, 0, 0] ∧
    premultRoundTrip 255 0 0 0 ≠ [255, 0, 0, 0] ∧
    (premultRoundTrip 100 0 0 1).getD 0 0 + 1 < 100 := by
  decide

/-- C6 (amended): the round trip through `MULT` premultiplication and
`convert_alpha` reproduces every channel exactly when alpha is 255;
when alpha is 0 it yields the all-zero pixel (the colour channels are
lost); and for every nonzero alpha each colour channel is reproduced
with an absolute error of at most 255 / alpha (stated as error times
alpha at most 255), while the alpha byte itself always round-trips
exactly. -/
theorem premult_round_trip (r g b a : Nat) (hr : r < 256) (hg : g < 256) (hb : b < 256)
    (ha : a < 256) :
    (a = 255 → premultRoundTrip r g b a = [r, g, b, a]) ∧
    (a = 0 → premultRoundTrip r g b a = [0, 0, 0, 0]) ∧
    (1 ≤ a →
      Nat.dist ((premultRoundTrip r g b a).getD 0 0) r * a ≤ 255 ∧
      Nat.dist ((premultRoundTrip r g b a).getD 1 0) g * a ≤ 255 ∧
      Nat.dist ((premultRoundTrip r g b a).getD 2 0) b * a ≤ 255 ∧
      (premultRoundTrip r g b a).getD 3 0 = a) := by
  have hMr := MULT_roundtrip_core a ha r hr
  have hMg := MULT_roundtrip_core a ha g hg
  have hMb := MULT_roundtrip_core a ha b hb
  have hbr : MULT r a < 256 := lt_of_le_of_lt hMr.1 ha
  have hbg : MULT g a < 256 := lt_of_le_of_lt hMg.1 ha
  have hbb : MULT b a < 256 := lt_of_le_of_lt hMb.1 ha
  refine ⟨?_, ?_, ?_⟩
  · intro h255
    subst h255
    rw [premultRoundTrip, rsvg_pixbuf_pixel_to_cairo,
      convert_alpha_pixel_packed _ _ _ _ hbb hbg hbr ha, if_neg (by decide)]
    rw [hMr.2.1 rfl, hMg.2.1 rfl, hMb.2.1 rfl]
    rw [Nat.mod_eq_of_lt (show r < 2 ^ 8 from hr), Nat.mod_eq_of_lt (show g < 2 ^ 8 from hg),
      Nat.mod_eq_of_lt (show b < 2 ^ 8 from hb)]
  · intro h0
    subst h0
    have hz : rsvg_pixbuf_pixel_to_cairo r g b 0 = 0 := by
      simp [rsvg_pixbuf_pixel_to_cairo, MULT_zero]
    rw [premultRoundTrip, hz]
    decide
  · intro ha1
    have hane : a ≠ 0 := by omega
    have hdiv : ∀ c : Nat, MULT c a ≤ a → (MULT c a * 255 + a / 2) / a < 2 ^ 8 := by
      intro c hc
      have h28 : (2 : Nat) ^ 8 = 256 := by norm_num
      rw [h28, Nat.div_lt_iff_lt_mul (by omega)]
      omega
    rw [premultRoundTrip, rsvg_pixbuf_pixel_to_cairo,
      convert_alpha_pixel_packed _ _ _ _ hbb hbg hbr ha, if_neg hane]
    refine ⟨?_, ?_, ?_, rfl⟩
    · show Nat.dist ((MULT r a * 255 + a / 2) / a % 2 ^ 8) r * a ≤ 255
      rw [Nat.mod_eq_of_lt (hdiv r hMr.1)]
      exact hMr.2.2 ha1
    · show Nat.dist ((MULT g a * 255 + a / 2) / a % 2 ^ 8) g * a ≤ 255
      rw [Nat.mod_eq_of_lt (hdiv g hMg.1)]
      exact hMg.2.2 ha1
    · show Nat.dist ((MULT b a * 255 + a / 2) / a % 2 ^ 8) b * a ≤ 255
      rw [Nat.mod_eq_of_lt (hdiv b hMb.1)]
      exact hMb.2.2 ha1

/-- Witness for C6's amended theorem at concrete pixels. -/
theorem premult_round_trip_witness :
    premultRoundTrip 10 20 30 255 = [10, 20, 30, 255] ∧
    Nat.dist ((premultRoundTrip 9 0 0 128).getD 0 0) 9 * 128 ≤ 255 := by
  refine ⟨(premult_round_trip 10 20 30 255 (by decide) (by decide) (by decide)
    (by decide)).1 rfl, ?_⟩
  exact ((premult_round_trip 9 0 0 128 (by decide) (by decide) (by decide)
    (by decide)).2.2 (by decide)).1

/-- Helper: every converted pixel occupies exactly four destination
bytes. -/
theorem convert_alpha_pixel_length (src : Nat) : (convert_alpha_pixel src).length = 4 := by
  rw [convert_alpha_pixel]
  split <;> rfl

/-- Helper: the zero word converts to four zero bytes. -/
theorem convert_alpha_pixel_zero : convert_alpha_pixel 0 = [0, 0, 0, 0] := rfl

/-- Helper: indexing the converted scanline at byte `4 * x + k` reads
byte `k` of the conversion of source pixel `x`. -/
theorem convertAlphaRow_getD (srcs : List Nat) (x k : Nat) (hk : k < 4) :
    (convertAlphaRow srcs).getD (4 * x + k) 0 =
      (convert_alpha_pixel (srcs.getD x 0)).getD k 0 := by
  induction srcs generalizing x with
  | nil =>
    show ([] : List Nat).getD (4 * x + k) 0 = _
    rw [List.getD_eq_default _ _ (by simp)]
    show (0 : Nat) = (convert_alpha_pixel 0).getD k 0
    rw [convert_alpha_pixel_zero]
    interval_cases k <;> rfl
  | cons s rest ih =>
    cases x with
    | zero =>
      rw [convertAlphaRow]
      have hlen : k < (convert_alpha_pixel s).length := by
        rw [convert_alpha_pixel_length]; omega
      rw [show 4 * 0 + k = k by omega, List.getD_append _ _ _ _ hlen]
      rfl
    | succ y =>
      rw [convertAlphaRow]
      have hge : (convert_alpha_pixel s).length ≤ 4 * (y + 1) + k := by
        rw [convert_alpha_pixel_length]; omega
      rw [List.getD_append_right _ _ _ _ hge, convert_alpha_pixel_length]
      rw [show 4 * (y + 1) + k - 4 = 4 * y + k by omega]
      exact ih y

/-- Helper: the checked-division version of the conversion always
succeeds: no division by zero is ever attempted. -/
theorem convert_alpha_pixel_checked_eq (src : Nat) :
    convert_alpha_pixel_checked src = some (convert_alpha_pixel src) := by
  rw [convert_alpha_pixel_checked, convert_alpha_pixel]
  by_cases h : src >>> 24 = 0
  · simp [h]
  · simp [h, checkedDiv]

/-- Helper: per-pixel behaviour of `convert_alpha` on a premultiplied
input word (each colour channel at most the alpha). -/
theorem convert_alpha_pixel_spec (src : Nat)
    (hbR : (src &&& 0xff0000) >>> 16 ≤ src >>> 24)
    (hbG : (src &&& 0x00ff00) >>> 8 ≤ src >>> 24)
    (hbB : src &&& 0x0000ff ≤ src >>> 24) :
    ((convert_alpha_pixel src).getD 3 0 = src >>> 24) ∧
    (src >>> 24 = 0 →
      (convert_alpha_pixel src).getD 0 0 = 0 ∧
      (convert_alpha_pixel src).getD 1 0 = 0 ∧
      (convert_alpha_pixel src).getD 2 0 = 0) ∧
    (src >>> 24 ≠ 0 →
      (convert_alpha_pixel src).getD 0 0 =
        (((src &&& 0xff0000) >>> 16) * 255 + (src >>> 24) / 2) / (src >>> 24) ∧
      (convert_alpha_pixel src).getD 1 0 =
        (((src &&& 0x00ff00) >>> 8) * 255 + (src >>> 24) / 2) / (src >>> 24) ∧
      (convert_alpha_pixel src).getD 2 0 =
        ((src &&& 0x0000ff) * 255 + (src >>> 24) / 2) / (src >>> 24)) := by
  rw [convert_alpha_pixel]
  by_cases h : src >>> 24 = 0
  · simp [h]
  · have hlt : ∀ ch : Nat, ch ≤ src >>> 24 →
        (ch * 255 + (src >>> 24) / 2) / (src >>> 24) < 2 ^ 8 := by
      intro ch hc
      have h28 : (2 : Nat) ^ 8 = 256 := by norm_num
      rw [h28, Nat.div_lt_iff_lt_mul (by omega)]
      omega
    simp only [h, if_neg, if_false]
    refine ⟨rfl, fun hc => hc.elim, fun _ => ⟨?_, ?_, ?_⟩⟩
    · show (((src &&& 0xff0000) >>> 16) * 255 + (src >>> 24) / 2) / (src >>> 24) % 2 ^ 8 = _
      rw [Nat.mod_eq_of_lt (hlt _ hbR)]
    · show (((src &&& 0x00ff00) >>> 8) * 255 + (src >>> 24) / 2) / (src >>> 24) % 2 ^ 8 = _
      rw [Nat.mod_eq_of_lt (hlt _ hbG)]
    · show ((src &&& 0x0000ff) * 255 + (src >>> 24) / 2) / (src >>> 24) % 2 ^ 8 = _
      rw [Nat.mod_eq_of_lt (hlt _ hbB)]

/-- C7: in the premultiplied-to-straight conversion loop, for every
pixel of the scanline: the output alpha byte equals the input alpha; if
the alpha is 0 the three output colour bytes are 0; otherwise each
output colour byte is the rounding division
`(premultiplied_channel * 255 + alpha / 2) / alpha` of the channel taken
from its byte position; and the conversion never divides by zero (the
division-checked variant always succeeds). -/
theorem convert_alpha_per_pixel (srcs : List Nat) (x : Nat) (hx : x < srcs.length)
    (hsrc : srcs.getD x 0 < 2 ^ 32)
    (hbR : (srcs.getD x 0 &&& 0xff0000) >>> 16 ≤ srcs.getD x 0 >>> 24)
    (hbG : (srcs.getD x 0 &&& 0x00ff00) >>> 8 ≤ srcs.getD x 0 >>> 24)
    (hbB : srcs.getD x 0 &&& 0x0000ff ≤ srcs.getD x 0 >>> 24) :
    ((convertAlphaRow srcs).getD (4 * x + 3) 0 = srcs.getD x 0 >>> 24) ∧
    (srcs.getD x 0 >>> 24 = 0 →
      (convertAlphaRow srcs).getD (4 * x) 0 = 0 ∧
      (convertAlphaRow srcs).getD (4 * x + 1) 0 = 0 ∧
      (convertAlphaRow srcs).getD (4 * x + 2) 0 = 0) ∧
    (srcs.getD x 0 >>> 24 ≠ 0 →
      (convertAlphaRow srcs).getD (4 * x) 0 =
        (((srcs.getD x 0 &&& 0xff0000) >>> 16) * 255 + (srcs.getD x 0 >>> 24) / 2) /
          (srcs.getD x 0 >>> 24) ∧
      (convertAlphaRow srcs).getD (4 * x + 1) 0 =
        (((srcs.getD x 0 &&& 0x00ff00) >>> 8) * 255 + (srcs.getD x 0 >>> 24) / 2) /
          (srcs.getD x 0 >>> 24) ∧
      (convertAlphaRow srcs).getD (4 * x + 2) 0 =
        ((srcs.getD x 0 &&& 0x0000ff) * 255 + (srcs.getD x 0 >>> 24) / 2) /
          (srcs.getD x 0 >>> 24)) ∧
    convert_alpha_pixel_checked (srcs.getD x 0) = some (convert_alpha_pixel (srcs.getD x 0)) := by
  have g0 : (convertAlphaRow srcs).getD (4 * x) 0 =
      (convert_alpha_pixel (srcs.getD x 0)).getD 0 0 := by
    simpa using convertAlphaRow_getD srcs x 0 (by omega)
  have g1 := convertAlphaRow_getD srcs x 1 (by omega)
  have g2 := convertAlphaRow_getD srcs x 2 (by omega)
  have g3 := convertAlphaRow_getD srcs x 3 (by omega)
  obtain ⟨s3, s0, sn⟩ := convert_alpha_pixel_spec (srcs.getD x 0) hbR hbG hbB
  refine ⟨by rw [g3, s3], fun h => ?_, fun h => ?_, convert_alpha_pixel_checked_eq _⟩
  · obtain ⟨a0, a1, a2⟩ := s0 h
    exact ⟨by rw [g0, a0], by rw [g1, a1], by rw [g2, a2]⟩
  · obtain ⟨a0, a1, a2⟩ := sn h
    exact ⟨by rw [g0, a0], by rw [g1, a1], by rw [g2, a2]⟩

/-- Witness for C7 on a concrete premultiplied scanline: pixel 0 has
alpha 0x80 with valid premultiplied channels, pixel 1 is fully
transparent. -/
theorem convert_alpha_per_pixel_witness :
    (convertAlphaRow [0x80402010, 0]).getD 3 0 = 0x80402010 >>> 24 ∧
    (convertAlphaRow [0x80402010, 0]).getD 4 0 = 0 := by
  have h1 := convert_alpha_per_pixel [0x80402010, 0] 0 (by decide) (by decide) (by decide)
    (by decide) (by decide)
  have h2 := convert_alpha_per_pixel [0x80402010, 0] 1 (by decide) (by decide) (by decide)
    (by decide) (by decide)
  refine ⟨h1.1, ?_⟩
  have := (h2.2.1 (by decide)).1
  simpa using this
